import Mathlib

/-!
Verification development for the timsCompare parameter-resolution and
derived scan-geometry engine (services.py, DataLoaderService).

The Python code is shallowly embedded as follows:

- Python dicts holding parameters are modelled as association lists
  (type Params) where an update appends entries and a lookup takes the
  value of the last occurrence of a key.  This is extensionally the
  key-to-value map of the Python dict; dict equality in Python ignores
  insertion order, and every behaviour the claims mention factors
  through lookups.
- XML element trees are modelled by the inductive type XML; the
  ElementTree operations used by the code (find of a direct child tag,
  descendant search by permname attribute, iter over a tag, attribute
  access, child entries, text) are embedded as total functions in
  document (preorder) order.
- IEEE floats are modelled as exact rationals; float(...) and int(...)
  on decimal strings are embedded as decimal parsers, and the
  percent .Nf format specifier as exact fixed-point formatting with
  round-half-up (the claims under study never depend on binary
  rounding artifacts).
- File system and sqlite access are abstracted as explicit inputs: the
  auxiliary dia and synchro stores are passed in as a value of type
  AuxStores whose constructors distinguish a missing file, an
  unreadable or malformed table, and a successfully read row list.
-/

/-- A Python runtime value as it occurs in the parameter dictionaries of
services.py: None, a string, a list, an int, or a float (modelled as an
exact rational).  Every list value the program ever stores is a list of
attribute values or texts, whose entries are strings or None. -/
inductive Value where
  | null
  | s (v : String)
  | arr (vs : List (Option String))
  | int (n : Int)
  | num (q : Rat)
deriving DecidableEq, Repr

/-- A parameter dictionary: association list, lookup takes the last
occurrence, update appends.  Extensionally equal to the Python dict. -/
abbrev Params := List (String × Value)

/-- Lookup of the value of the last occurrence of a key (Python dict get). -/
def pget : Params → String → Option Value
  | [], _ => none
  | p :: rest, k =>
    match pget rest k with
    | some v => some v
    | none => if p.1 = k then some p.2 else none

/-- Assignment dict[k] = v, modelled as an append (later entries shadow). -/
def pset (d : Params) (k : String) (v : Value) : Params := d ++ [(k, v)]

/-- Membership test, Python (k in dict). -/
def pcontains (d : Params) (k : String) : Bool := d.any (fun p => p.1 = k)

/-- Lookup in a string-to-string dict (for example a VALUETEXT value map). -/
def mget (m : List (String × String)) (k : String) : Option String :=
  match m with
  | [] => none
  | p :: rest =>
    match mget rest k with
    | some v => some v
    | none => if p.1 = k then some p.2 else none

/-- Lookup in a string-to-string-list dict (the view definitions). -/
def mgetL (m : List (String × List String)) (k : String) : Option (List String) :=
  match m with
  | [] => none
  | p :: rest =>
    match mgetL rest k with
    | some v => some v
    | none => if p.1 = k then some p.2 else none

/-- Python truthiness of a Value. -/
def pyTruthy : Value → Bool
  | .null => false
  | .s v => v != ""
  | .arr l => !l.isEmpty
  | .int n => n != 0
  | .num q => q != 0

/-- Python repr of a list entry, used only inside the str() of a list. -/
def pyReprEntry : Option String → String
  | none => "None"
  | some v => "\x27" ++ v ++ "\x27"

/-- Python str() of a Value.  For floats the exact rational is printed,
an abstraction of the repr of an IEEE double; no claim depends on it. -/
def pyStrV : Value → String
  | .null => "None"
  | .s v => v
  | .arr vs => "[" ++ String.intercalate ", " (vs.map pyReprEntry) ++ "]"
  | .int n => toString n
  | .num q => toString q

/-- Python str() applied to an optional value (str(None) is "None"). -/
def pyStrOpt (o : Option Value) : String := (o.map pyStrV).getD "None"

/-- Python key.startswith("calc_"), written over the character list so
that it evaluates by reduction. -/
def isCalcKey (s : String) : Bool := s.data.take 5 == "calc_".data

/-- Python s.lower(), written charwise so that it evaluates by
reduction (the attribute values compared this way are ASCII). -/
def pyLower (s : String) : String := String.mk (s.data.map Char.toLower)

/-- Python s.endswith(t), written charwise so that it evaluates by
reduction. -/
def pyEndsWith (s t : String) : Bool :=
  s.data.drop (s.data.length - t.data.length) == t.data

/-- Numeric value of a list of decimal digit characters. -/
def natOfDigits (cs : List Char) : Nat :=
  cs.foldl (fun acc c => acc * 10 + (c.toNat - 48)) 0

/-- Decimal string to rational, embedding Python float(...) on the plain
decimal literals that occur in method files: optional sign, digits,
optional fractional part.  Anything else fails (models ValueError). -/
def pyFloat (str : String) : Option Rat :=
  let cs := str.data
  let signAndRest : Bool × List Char :=
    match cs with
    | '-' :: r => (true, r)
    | '+' :: r => (false, r)
    | r => (false, r)
  let neg := signAndRest.1
  let body := signAndRest.2
  let ip := body.takeWhile (fun c => c ≠ '.')
  let rest := body.dropWhile (fun c => c ≠ '.')
  let fp := rest.drop 1
  if ip.all Char.isDigit ∧ fp.all Char.isDigit ∧ (ip ≠ [] ∨ fp ≠ []) ∧
      (rest = [] ∨ rest.take 1 = ['.']) ∧ fp.all (fun c => c ≠ '.') then
    let q : Rat := (natOfDigits ip : Rat) + (natOfDigits fp : Rat) / ((10 : Rat) ^ fp.length)
    some (if neg then -q else q)
  else none

/-- Decimal string to integer, embedding Python int(...) on plain
decimal integer literals: optional sign, digits. -/
def pyInt (str : String) : Option Int :=
  let cs := str.data
  let signAndRest : Bool × List Char :=
    match cs with
    | '-' :: r => (true, r)
    | '+' :: r => (false, r)
    | r => (false, r)
  let neg := signAndRest.1
  let body := signAndRest.2
  if body ≠ [] ∧ body.all Char.isDigit then
    let n : Int := (natOfDigits body : Int)
    some (if neg then -n else n)
  else none

/-- Truncation of a rational toward zero (Python int() on a float). -/
def ratTrunc (q : Rat) : Int := if q < 0 then ⌈q⌉ else ⌊q⌋

/-- Python int(value): parses strings, passes ints, truncates floats,
raises (returns none) on None and lists. -/
def toPyInt : Value → Option Int
  | .s v => pyInt v
  | .int n => some n
  | .num q => some (ratTrunc q)
  | .null => none
  | .arr _ => none

/-- Python float(value): parses strings, passes ints and floats, raises
(returns none) on None and lists. -/
def toPyFloat : Value → Option Rat
  | .s v => pyFloat v
  | .int n => some (n : Rat)
  | .num q => some q
  | .null => none
  | .arr _ => none

/-- Python (x or 0) applied to an optional value before a conversion. -/
def pyOrZero (o : Option Value) : Value :=
  match o with
  | some v => if pyTruthy v then v else .int 0
  | none => .int 0

/-- Left-pad a string with zeros to a given length. -/
def padZeros (str : String) (n : Nat) : String :=
  String.mk (List.replicate (n - str.length) '0') ++ str

/-- Fixed-point decimal formatting of a rational with prec digits,
embedding the Python percent .Nf format (rounding abstracted as
round-half-up on the exact value). -/
def fmtFixed (prec : Nat) (q : Rat) : String :=
  let n : Int := round (q * ((10 : Rat) ^ prec))
  let sign := if n < 0 then "-" else ""
  let m := n.natAbs
  let ip := m / 10 ^ prec
  let fp := m % 10 ^ prec
  if prec = 0 then sign ++ toString ip
  else sign ++ toString ip ++ "." ++ padZeros (toString fp) prec

mutual

/-- An XML element: tag, attributes, text content, child elements.  The
child list is represented by the mutually defined XMLList so that the
descendant traversals below are mutual structural recursions. -/
inductive XML where
  | elem (tag : String) (attrs : List (String × String)) (text : Option String)
      (children : XMLList) : XML

inductive XMLList where
  | nil : XMLList
  | cons (head : XML) (tail : XMLList) : XMLList

end

/-- View of an XMLList as an ordinary list of elements. -/
def XMLList.toList : XMLList → List XML
  | .nil => []
  | .cons x r => x :: XMLList.toList r

/-- Build an XMLList from an ordinary list of elements. -/
def xl : List XML → XMLList
  | [] => .nil
  | x :: r => .cons x (xl r)

/-- Tag of an element. -/
def XML.tag : XML → String
  | .elem t _ _ _ => t

/-- Attributes of an element. -/
def XML.attrs : XML → List (String × String)
  | .elem _ a _ _ => a

/-- Text content of an element. -/
def XML.text : XML → Option String
  | .elem _ _ tx _ => tx

/-- Children of an element, as an ordinary list. -/
def XML.children : XML → List XML
  | .elem _ _ _ cs => cs.toList

/-- Attribute access, ElementTree element.get(name). -/
def XML.attr (x : XML) (k : String) : Option String := List.lookup k x.attrs

mutual

/-- First element of the subtree of x (document order, x itself
included) carrying a permname attribute equal to name. -/
def findPNX (name : String) : XML → Option XML
  | XML.elem t a tx cs =>
    if List.lookup "permname" a = some name then some (XML.elem t a tx cs)
    else findPNL name cs

/-- The same search over the subtrees of a forest, left to right. -/
def findPNL (name : String) : XMLList → Option XML
  | XMLList.nil => none
  | XMLList.cons x rest =>
    match findPNX name x with
    | some r => some r
    | none => findPNL name rest

end

/-- First descendant of x (excluding x itself) with the given permname;
embeds the ElementTree search .//*[@permname=...]. -/
def findPN (name : String) : XML → Option XML
  | XML.elem _ _ _ cs => findPNL name cs

mutual

/-- All elements with the given tag in the subtree of x, preorder,
including x itself (ElementTree element.iter(tag)). -/
def iterTagX (tag : String) : XML → List XML
  | XML.elem t a tx cs =>
    (if t = tag then [XML.elem t a tx cs] else []) ++ iterTagL tag cs

/-- Preorder tag collection over a forest, left to right. -/
def iterTagL (tag : String) : XMLList → List XML
  | XMLList.nil => []
  | XMLList.cons x rest => iterTagX tag x ++ iterTagL tag rest

end

/-- ElementTree element.iter(tag) with the receiver first. -/
def iterTag (x : XML) (tag : String) : List XML := iterTagX tag x

/-- First direct child with the given tag (ElementTree find with a
plain tag path). -/
def findChild (x : XML) (tag : String) : Option XML :=
  x.children.find? (fun c => c.tag = tag)

/-- All direct children with the given tag. -/
def childrenTag (x : XML) (tag : String) : List XML :=
  x.children.filter (fun c => c.tag = tag)

/-- The ordered segment elements of a method document, embedding the
findall of the path method/qtofimpactemacq/timetable/segment. -/
def segElements (root : XML) : List XML :=
  ((((childrenTag root "method").map (fun m => childrenTag m "qtofimpactemacq")).flatten.map
      (fun q => childrenTag q "timetable")).flatten.map
      (fun t => childrenTag t "segment")).flatten

/-- A parameter definition as loaded by AppConfig from the embedded cfg
files: permanent name, scope location (USE), optional dependency link,
optional value-code table, optional unit, rounding and type metadata. -/
structure ParamDef where
  permname : String
  location : String := "method"
  lookupDrivenBy : Option String := none
  valueMap : List (String × String) := []
  unit : Option String := none
  roundTo : Option Nat := none
  typeIsBoolean : Bool := false
deriving DecidableEq, Repr

/-- The application configuration consumed by DataLoaderService: the
full ordered definition catalog and the per-workflow view definitions. -/
structure Config where
  allDefinitions : List ParamDef
  parameterDefinitions : List (String × List String) := []

/-- Lookup of a definition by permname; embeds the Python dict
comprehension over all definitions, in which a later entry wins. -/
def defLookup (defs : List ParamDef) (k : String) : Option ParamDef :=
  match defs with
  | [] => none
  | d :: rest =>
    match defLookup rest k with
    | some r => some r
    | none => if d.permname = k then some d else none

/-- The fixed driver-code-to-index table ime_x_mode_to_index. -/
def imeXModeToIndex (str : String) : Option Nat :=
  if str = "0" then some 0
  else if str = "1" then some 1
  else if str = "2" then some 2
  else if str = "3" then some 3
  else if str = "4" then some 4
  else none

/-- Value extraction from a found element (services._get_value_from_element):
with an entry index, the value attribute of that child; otherwise the list
of child value attributes (or texts when the first child has no value
attribute); otherwise the value attribute of the element itself. -/
def getValueFromElement (el : Option XML) (entryIdx : Option Nat) : Option Value :=
  match el with
  | none => none
  | some e =>
    match entryIdx with
    | some i =>
      match e.children.get? i with
      | some c => (c.attr "value").map Value.s
      | none => none
    | none =>
      match e.children with
      | [] => (e.attr "value").map Value.s
      | c0 :: _ =>
        if (c0.attr "value").isSome then
          Value.arr (e.children.map (fun c => c.attr "value"))
        else
          Value.arr (e.children.map (fun c => c.text))

/-- Match of a conditional-override attribute against a context value:
both must be present and nonempty, compared case-insensitively. -/
def condMatch (a b : Option String) : Bool :=
  match a, b with
  | some x, some y => x != "" && y != "" && pyLower x == pyLower y
  | _, _ => false

/-- The candidate conditional-override scopes of a search root, built
exactly as in find_and_get_value: iterate the dependent elements in
document order; a both-polarity-and-source match is inserted at the
front with priority 3, a polarity-only match appended with priority 2,
a source-only match appended with priority 1; then a stable sort by
priority descending (written here as the equivalent bucket
concatenation, which is what a stable sort of priorities in 3,2,1
produces). -/
def rankStep (pol src : Option String) (acc : List (Nat × XML)) (d : XML) : List (Nat × XML) :=
  let pm := condMatch (d.attr "polarity") pol
  let sm := condMatch (d.attr "source") src
  if pm && sm then (3, d) :: acc
  else if pm then acc ++ [(2, d)]
  else if sm then acc ++ [(1, d)]
  else acc

def rankedDependentScopes (root : XML) (pol src : Option String) : List (Nat × XML) :=
  let l := (iterTag root "dependent").foldl (rankStep pol src) []
  l.filter (fun p => p.1 == 3) ++ l.filter (fun p => p.1 == 2) ++
    l.filter (fun p => p.1 == 1)

/-- Scope resolution of one parameter (services find_and_get_value):
choose the search root from the definition location, search the ranked
conditional-override scopes most specific first, then the root itself,
then the instrument fallback for method-located parameters; extract the
value honoring a dependency-driven entry index resolved from the
already-resolved results of this pass. -/
def findAndGetValue (cfg : List ParamDef) (methodScope : XML) (instr : Option XML)
    (ionPolarity ionSource : Option String) (pCfg : ParamDef)
    (currentResults : Params) : Option Value :=
  if pCfg.permname = "" then none
  else
    let fullCfg := defLookup cfg pCfg.permname
    let entryIdx : Option Nat :=
      match fullCfg.bind (fun c => c.lookupDrivenBy) with
      | some driver =>
        match pget currentResults driver with
        | some dv => imeXModeToIndex (pyStrV dv)
        | none => none
      | none => none
    let location := (fullCfg.map (fun c => c.location)).getD "method"
    let searchRoot : Option XML := if location = "instrument" then instr else some methodScope
    match searchRoot with
    | none => none
    | some root =>
      let fromDeps := (rankedDependentScopes root ionPolarity ionSource).findSome?
        (fun pr => findPN pCfg.permname pr.2)
      let fromBase :=
        match fromDeps with
        | some f => some f
        | none => findPN pCfg.permname root
      let found :=
        match fromBase with
        | some f => some f
        | none =>
          if location = "method" then instr.bind (fun ie => findPN pCfg.permname ie)
          else none
      getValueFromElement found entryIdx

/-- Whether a parameter is dependency-driven according to the catalog. -/
def isDependencyDriven (cfg : List ParamDef) (p : ParamDef) : Bool :=
  ((defLookup cfg p.permname).bind (fun c => c.lookupDrivenBy)).isSome

/-- Resolution of a list of requested parameters against one scope
(services._parse_parameters_for_scope): independent parameters first,
then dependency-driven ones, storing each value that was found. -/
def parseParametersForScope (cfg : List ParamDef) (methodScope : XML) (instr : Option XML)
    (paramInfo : List ParamDef) (ionPolarity ionSource : Option String) : Params :=
  let indep := paramInfo.filter (fun p => !isDependencyDriven cfg p)
  let dep := paramInfo.filter (fun p => isDependencyDriven cfg p)
  (indep ++ dep).foldl (fun results p =>
    match findAndGetValue cfg methodScope instr ionPolarity ionSource p results with
    | some v => pset results p.permname v
    | none => results) []

/-- The keys of a parameter dict in Python insertion order (order of
first occurrence in the association list). -/
def pyKeys (d : Params) : List String := ((d.map Prod.fst).reverse.dedup).reverse

/-- One step of the post-merge dependency reduction loop of
_parse_and_populate_segment at a single key: a list value whose catalog
definition carries a dependency link is replaced by the entry selected
by the driver value when the driver maps to an index within bounds. -/
def reduceStepVal (cfg : List ParamDef) (st : Params) (k : String) : Params :=
  match pget st k with
  | some (.arr vs) =>
    match defLookup cfg k with
    | some pc =>
      match pc.lookupDrivenBy with
      | some driver =>
        match pget st driver with
        | some dv =>
          match imeXModeToIndex (pyStrV dv) with
          | some i =>
            match vs.get? i with
            | some entry =>
              pset st k (match entry with | some v => .s v | none => .null)
            | none => st
          | none => st
        | none => st
      | none => st
    | none => st
  | _ => st

/-- The post-merge dependency reduction loop of
_parse_and_populate_segment: every key of the merged dict is visited
once (Python iterates a snapshot of the items; each key is visited once
and driver values are read from the live dict). -/
def reduceLoop (cfg : List ParamDef) (d : Params) : Params :=
  (pyKeys d).foldl (fun st k => reduceStepVal cfg st k) d

/-- Formatting of a raw value for display (utils.format_parameter_value):
N/A for absent or empty values, value-map decoding, boolean rendering,
list summaries, numeric rounding, unit suffix. -/
def formatParameterValue (value : Value) (pc : Option ParamDef) : String :=
  if value = .null ∨ value = .s "" then "N/A"
  else
    let vm := (pc.map (fun c => c.valueMap)).getD []
    match (if vm.isEmpty then none else mget vm (pyStrV value)) with
    | some mapped => mapped
    | none =>
      let permname := (pc.map (fun c => c.permname)).getD ""
      let isBool := (pc.map (fun c => c.typeIsBoolean)).getD false
      if isBool ∨ (permname ≠ "" ∧ pyEndsWith permname "Switch" = true) then
        if pyStrV value ∈ ["1", "true", "True"] then "On" else "Off"
      else
        match value with
        | .arr vs =>
          if permname = "IMS_PolygonFilter_Mass" ∨ permname = "IMS_PolygonFilter_Mobility" then
            "Polygon (" ++ toString vs.length ++ " points)"
          else
            "List (" ++ toString vs.length ++ " items)"
        | _ =>
          let fs :=
            match toPyFloat value with
            | some q =>
              match pc.bind (fun c => c.roundTo) with
              | some r => fmtFixed r q
              | none => pyStrV value
            | none => pyStrV value
          match pc.bind (fun c => c.unit) with
          | some u => if u ≠ "" ∧ fs ≠ "N/A" then fs ++ " " ++ u else fs
          | none => fs

/-- Float parse of every entry of a list value; fails when an entry is
None or unparsable (the list comprehension raises and is caught). -/
def floatListOfEntries : List (Option String) → Option (List Rat)
  | [] => some []
  | none :: _ => none
  | some v :: rest =>
    match pyFloat v with
    | some q => (floatListOfEntries rest).map (fun l => q :: l)
    | none => none

/-- Python [float(v) for v in value]: iterates list entries, or the
characters of a scalar string; non-iterables raise (none). -/
def floatListOfValue : Value → Option (List Rat)
  | .arr vs => floatListOfEntries vs
  | .s str => str.data.mapM (fun c => pyFloat (String.singleton c))
  | _ => none

/-- Python [int(v) for v in value], same shape as floatListOfValue. -/
def intListOfEntries : List (Option String) → Option (List Int)
  | [] => some []
  | none :: _ => none
  | some v :: rest =>
    match pyInt v with
    | some q => (intListOfEntries rest).map (fun l => q :: l)
    | none => none

/-- Python [float(v) for v in value if v is not None] (the PASEF polygon
comprehensions, which skip None entries instead of raising on them). -/
def floatListFiltered : Value → Option (List Rat)
  | .arr vs => (vs.filterMap id).mapM pyFloat
  | .s str => str.data.mapM (fun c => pyFloat (String.singleton c))
  | _ => none

/-- Formatted entries of the advanced collision-energy ramping list, one
line per entry (entry type word, energy, mobility). -/
def advRampingEntries : List Rat → List Rat → List Int → List (Option String)
  | cv :: cr, mv :: mr, et :: er =>
    let ts := if et = 0 then "base" else if et = 1 then "fixed" else toString et
    some (ts ++ " " ++ fmtFixed 2 cv ++ " eV @ " ++ fmtFixed 2 mv) ::
      advRampingEntries cr mr er
  | _, _, _ => []

/-- The calculated collision-energy ramping fields written by
_calculate_energy_ramping_params, as an ordered write list.  The texts
of the two inline error strings embed a Python exception message; they
are abbreviated here and exercised by no claim. -/
def energyRampingWrites (cfg : List ParamDef) (params : Params) : List (String × Value) :=
  let isAdv := pget params "Energy_Ramping_Advanced_Settings_Active" == some (.s "1")
  if !isAdv then
    let ceCfg := defLookup cfg "Energy_Ramping_Collision_Energy_StartEnd"
    let mobCfg := defLookup cfg "Energy_Ramping_Mobility_StartEnd"
    let pair := fun (v : Option Value) =>
      match v with
      | some (.arr (a :: b :: _)) => (a, b)
      | _ => ((none : Option String), (none : Option String))
    let ce := pair (pget params "Energy_Ramping_Collision_Energy_StartEnd")
    let mob := pair (pget params "Energy_Ramping_Mobility_StartEnd")
    let startV : Value :=
      match ce.1, mob.1 with
      | some cv, some mv =>
        .s (formatParameterValue (.s cv) ceCfg ++ " @ " ++ formatParameterValue (.s mv) mobCfg)
      | _, _ => .s "N/A"
    let endV : Value :=
      match ce.2, mob.2 with
      | some cv, some mv =>
        .s (formatParameterValue (.s cv) ceCfg ++ " @ " ++ formatParameterValue (.s mv) mobCfg)
      | _, _ => .s "N/A"
    [("calc_advanced_ce_ramping_display_list", .null),
     ("calc_ce_ramping_start", startV), ("calc_ce_ramping_end", endV)]
  else
    let truthyO := fun (o : Option Value) => match o with | some v => pyTruthy v | none => false
    let mobStr := pget params "Energy_Ramping_Advanced_ListMobilityValues"
    let ceStr := pget params "Energy_Ramping_Advanced_ListCollisionEnergyValues"
    let etStr := pget params "Energy_Ramping_Advanced_ListEntryType"
    let listV : Value :=
      if truthyO mobStr && truthyO ceStr then
        match floatListOfValue ((mobStr).getD .null), floatListOfValue ((ceStr).getD .null) with
        | some mvs, some cvs =>
          let ets? : Option (List Int) :=
            if truthyO etStr then
              match (etStr).getD .null with
              | .arr vs => intListOfEntries vs
              | _ => none
            else some (List.replicate mvs.length 0)
          match ets? with
          | some ets =>
            if mvs.length = cvs.length ∧ cvs.length = ets.length then
              .arr (advRampingEntries cvs mvs ets)
            else
              .arr [some "Error parsing advanced values"]
          | none => .arr [some "Error parsing advanced values"]
        | _, _ => .arr [some "Error parsing advanced values"]
      else .arr [some "No advanced values found"]
    [("calc_advanced_ce_ramping_display_list", .null),
     ("calc_advanced_ce_ramping_display_list", listV),
     ("calc_ce_ramping_start", .s "N/A"), ("calc_ce_ramping_end", .s "N/A")]

/-- The calculated stepping summary written by
_calculate_msms_stepping_params, as an ordered write list. -/
def msmsSteppingWrites (cfg : List ParamDef) (params : Params) : List (String × Value) :=
  if pget params "Ims_Stepping_Active" != some (.s "1") then
    [("calc_msms_stepping_display_list", .null)]
  else
    let ceEntry := fun (label : String) (v : Option Value) =>
      match v with
      | some (.arr [some a, some b]) =>
        match pyFloat a, pyFloat b with
        | some x, some y =>
          [some (label ++ ": " ++ fmtFixed 1 x ++ " - " ++ fmtFixed 1 y ++ " eV")]
        | _, _ => []
      | _ => []
    let vecEntry := fun (label : String) (pn : String) =>
      match pget params pn with
      | some (.arr vs) =>
        let unit := ((defLookup cfg pn).bind (fun c => c.unit)).getD ""
        let unitStr := if unit != "" then " " ++ unit else ""
        vs.enum.filterMap (fun p =>
          match p.2 with
          | some v =>
            (pyFloat v).map (fun q =>
              some (label ++ " (Scan #" ++ toString (p.1 + 1) ++ "): " ++ fmtFixed 1 q ++ unitStr))
          | none => none)
      | _ => []
    let details :=
      ceEntry "CE (Scan #1)" (pget params "Energy_Ramping_Collision_Energy_StartEnd") ++
      ceEntry "CE (Scan #2)" (pget params "Energy_Ramping_Collision_Energy_StartEnd_Tims_Step_2") ++
      vecEntry "Collision RF" "Ims_CollisionCellRF_Steps" ++
      vecEntry "Transfer Time" "Ims_TransferTimeSteps" ++
      vecEntry "Pre-Pulse Storage" "Ims_PrePulseStorageTimeSteps"
    [("calc_msms_stepping_display_list",
      if details.isEmpty then Value.null else Value.arr details)]

/-- The PASEF derivation (_process_pasef_data): pairs the polygon mass
and mobility arrays into the polygon data and writes the cycle time
total_scans * (ramp_time + quench_time) / 1000 with total_scans =
num_ramps + 1, or N/A when a conversion fails. -/
def processPasefData (params : Params) : Params × Option (List Rat × List Rat) :=
  let poly : Option (List Rat × List Rat) :=
    match pget params "IMS_PolygonFilter_Mass", pget params "IMS_PolygonFilter_Mobility" with
    | some mv, some bv =>
      match floatListFiltered mv, floatListFiltered bv with
      | some ms, some bs => if !ms.isEmpty && !bs.isEmpty then some (ms, bs) else none
      | _, _ => none
    | _, _ => none
  let ct : Value :=
    match toPyInt (pyOrZero (pget params "MSMS_Pasef_NumRampsPerCycle")),
        toPyFloat (pyOrZero (pget params "IMS_imeX_RampTime")),
        toPyFloat (pyOrZero (pget params "Collision_QuenchTime_Set")) with
    | some nr, some rt, some qt =>
      .s (fmtFixed 2 (((nr : Rat) + 1) * (rt + qt) / 1000) ++ " s")
    | _, _, _ => .s "N/A"
  (pset params "calc_cycle_time" ct, poly)

/-- A row of the dia-PASEF isolation-window specification table. -/
structure DiaRow where
  idn : Int
  typ : Int
  cycleId : Int
  oneOverK0Start : Rat
  oneOverK0End : Rat
  isolationMz : Rat
  isolationWidth : Rat
deriving DecidableEq, Repr

/-- The dia auxiliary store as seen by the loader, restricted to the
states from which _process_dia_pasef_data returns: file absent; read
raising inside the guarded sqlite block (caught, degrading to N/A — a
readable table whose Type column is absent or of non-numeric dtype is
guarded into the same N/A degradation and is collapsed here too); or a
successfully read, fully numeric row list.  A readable table whose
Type column is numeric but whose other used columns hold text is
outside this model: there the Python derivation raises an uncaught
ValueError or TypeError (from the .1f format or the arithmetic on the
text column) and the load aborts instead of degrading. -/
inductive DiaSource where
  | missing
  | unreadable
  | table (rows : List DiaRow)
deriving DecidableEq, Repr

/-- A cell of an auxiliary sqlite table: numeric, text, or NULL. -/
inductive Cell where
  | num (q : Rat)
  | txt (s : String)
  | null
deriving DecidableEq, Repr

/-- Python int() applied to a cell: a numeric cell truncates toward
zero, a text cell parses as a decimal integer or raises, NULL raises
(none is the raising outcome). -/
def pyIntCell : Cell → Option Int
  | .num q => some (ratTrunc q)
  | .txt s => pyInt s
  | .null => none

/-- A row of the diagonal-PASEF Template table.  The three cells the
code converts or formats directly (insert_ms_scan, number_of_slices,
isolation_mz) are raw cells, since a text or NULL cell there changes
the control flow (the blanket except of the processor stops the write
sequence).  slope, origin and width_mz are modelled as optional
numerics: an absent, NULL or text value there funnels into the same
inner except and yields the same N/A write, so the distinction carries
no behaviour. -/
structure DiagRow where
  slope : Option Rat
  origin : Option Rat
  widthMz : Option Rat
  isolationMz : Cell
  numberOfSlices : Cell
  insertMsScan : Cell
deriving DecidableEq, Repr

/-- The synchro auxiliary store as seen by the loader: absent file,
read failure (caught by the blanket except with nothing written), or
the rows of the Template table. -/
inductive SyncSource where
  | missing
  | unreadable
  | table (rows : List DiagRow)
deriving DecidableEq, Repr

/-- Maximum of a list of integers (pandas Series.max over a nonempty
selection; 0 only for the empty list, which the callers exclude). -/
def listMaxI : List Int → Int
  | [] => 0
  | x :: xs => xs.foldl max x

/-- Maximum of a list of rationals, same convention. -/
def listMaxQ : List Rat → Rat
  | [] => 0
  | x :: xs => xs.foldl max x

/-- Minimum of a list of rationals, same convention. -/
def listMinQ : List Rat → Rat
  | [] => 0
  | x :: xs => xs.foldl min x

/-- The N/A placeholder writes of _initialize_dia_params_as_na. -/
def diaNAWrites (ms1Only : Bool) : List (String × Value) :=
  (if ms1Only then [] else [("calc_ms1_scans", Value.s "N/A")]) ++
  [("calc_ramps", .s "N/A"), ("calc_steps", .s "N/A"), ("calc_mz_width", .s "N/A"),
   ("calc_scan_area_mz", .s "N/A"), ("calc_scan_area_im", .s "N/A"),
   ("calc_cycle_time", .s "N/A")]

/-- Steps per cycle as the code computes it: the maximum, over cycle
ids, of the number of Type 1 rows in that cycle (value_counts().max()). -/
def diaSteps (pasef : List DiaRow) : Int :=
  let cids := pasef.map (fun r => r.cycleId)
  listMaxI (cids.dedup.map (fun c => (cids.count c : Int)))

/-- The per-mode derived writes of the dia-PASEF derivation for a
nonempty row table: ramps, steps, width summary, scan areas, cycle
time; the ms1 N/A set when there are no Type 1 rows. -/
def diaTailWrites (params : Params) (rows : List DiaRow) : List (String × Value) :=
  let pasef := rows.filter (fun r => r.typ == 1)
  let ms1 : Int := (rows.filter (fun r => r.typ == 0)).length
  match pasef with
  | [] => diaNAWrites true
  | q0 :: _ =>
    let numRamps := listMaxI (pasef.map (fun r => r.cycleId))
    let steps := diaSteps pasef
    let widths := pasef.map (fun r => r.isolationWidth)
    let mzw : Value :=
      if widths.dedup.length == 1 then .s ("static (" ++ fmtFixed 1 q0.isolationWidth ++ ")")
      else .s "variable"
    let minMz := listMinQ (pasef.map (fun r => r.isolationMz))
    let maxMz := listMaxQ (pasef.map (fun r => r.isolationMz))
    let minRow := (pasef.find? (fun r => r.isolationMz == minMz)).getD q0
    let maxRow := (pasef.find? (fun r => r.isolationMz == maxMz)).getD q0
    let areaMz : Value :=
      .s (fmtFixed 2 (minRow.isolationMz - minRow.isolationWidth / 2) ++ " m/z - " ++
          fmtFixed 2 (maxRow.isolationMz + maxRow.isolationWidth / 2) ++ " m/z")
    let areaIm : Value :=
      .s (fmtFixed 4 (listMinQ (pasef.map (fun r => r.oneOverK0Start))) ++ " - " ++
          fmtFixed 4 (listMaxQ (pasef.map (fun r => r.oneOverK0End))))
    let ct : Value :=
      match toPyFloat (pyOrZero (pget params "IMS_imeX_RampTime")),
          toPyFloat (pyOrZero (pget params "Collision_QuenchTime_Set")) with
      | some rt, some qt =>
        .s (fmtFixed 2 (((numRamps : Rat) + (ms1 : Rat)) * (rt + qt) / 1000) ++ " s")
      | _, _ => .s "N/A"
    [("calc_ramps", .int numRamps), ("calc_steps", .int steps),
     ("calc_mz_width", mzw), ("calc_scan_area_mz", areaMz),
     ("calc_scan_area_im", areaIm), ("calc_cycle_time", ct)]

/-- The dia-PASEF derivation (_process_dia_pasef_data) over the
DiaSource states (the states the function returns from; see DiaSource
for the uncaught ill-typed-table boundary).  The plotting preparation
columns (x_start, plot_y_start, plot_y_end with the global ramp
snapping) feed only the plot and are omitted; the stored window data
is the raw row list. -/
def processDiaPasefData (params : Params) (src : DiaSource) :
    Params × Option (List DiaRow) :=
  match src with
  | .missing => (params ++ diaNAWrites false, none)
  | .unreadable => (params ++ diaNAWrites false, none)
  | .table [] => (params ++ diaNAWrites false, some [])
  | .table (r0 :: rrest) =>
    let rows := r0 :: rrest
    let ms1 : Int := (rows.filter (fun r => r.typ == 0)).length
    (params ++ (("calc_ms1_scans", Value.int ms1) :: diaTailWrites params rows), some rows)

/-- The diagonal mobility scan-area writes: the formatted area and the
measured bounds when both mobility bounds parse, N/A otherwise. -/
def diagAreaImWrites (startIm endIm : Option Rat) : List (String × Value) :=
  match startIm, endIm with
  | some si, some ei =>
    [("calc_scan_area_im", Value.s (fmtFixed 2 si ++ " - " ++ fmtFixed 2 ei)),
     ("calc_im_start", .num si), ("calc_im_end", .num ei)]
  | _, _ => [("calc_scan_area_im", Value.s "N/A")]

/-- The formatted diagonal m/z scan-area text for a non-degenerate
linear mapping. -/
def diagAreaMzText (si ei sl org wmz : Rat) (nr : Int) (isoMz : Rat) : String :=
  let c1 := (si - org) / sl
  let c2 := (ei - org) / sl
  let ps1 := c1 - wmz / 2
  let ps2 := c2 - wmz / 2
  let step := if nr > 0 then wmz / (nr : Rat) else 0
  let lastStart := ps2 + ((nr : Rat) - 1) * step
  let endMz := lastStart + isoMz
  fmtFixed 2 ps1 ++ " m/z - " ++ fmtFixed 2 endMz ++ " m/z"

/-- The diagonal m/z scan-area write: present only when both mobility
bounds parsed; N/A when the linear mapping is absent or degenerate. -/
def diagAreaMzWrites (startIm endIm : Option Rat) (slope origin widthMz : Option Rat)
    (nr : Int) (isoMz : Rat) : List (String × Value) :=
  match startIm, endIm with
  | some si, some ei =>
    match slope, origin, widthMz with
    | some sl, some org, some wmz =>
      if sl == 0 then [("calc_scan_area_mz", Value.s "N/A")]
      else [("calc_scan_area_mz", Value.s (diagAreaMzText si ei sl org wmz nr isoMz))]
    | _, _, _ => [("calc_scan_area_mz", Value.s "N/A")]
  | _, _ => []

/-- The writes of the diagonal-PASEF derivation that follow the two
count writes once the isolation m/z formatted: the width, the two
scan areas, the cycle time. -/
def diagWrites (params : Params) (ms1 nr : Int) (isoMz : Rat)
    (slope origin widthMz : Option Rat) : List (String × Value) :=
  let startIm := (pget params "IMS_imeX_RampStart").bind toPyFloat
  let endIm := (pget params "IMS_imeX_RampEnd").bind toPyFloat
  let ct : Value :=
    match toPyFloat (pyOrZero (pget params "IMS_imeX_RampTime")),
        toPyFloat (pyOrZero (pget params "Collision_QuenchTime_Set")) with
    | some rt, some qt =>
      .s (fmtFixed 2 (((ms1 : Rat) + (nr : Rat)) * (rt + qt) / 1000) ++ " s")
    | _, _ => .s "N/A"
  [("calc_mz_width", Value.s (fmtFixed 1 isoMz))] ++
  diagAreaImWrites startIm endIm ++
  diagAreaMzWrites startIm endIm slope origin widthMz nr isoMz ++
  [("calc_cycle_time", ct)]

/-- The diagonal-PASEF derivation (_process_diagonal_pasef_data).  The
whole body sits in a blanket except, so the function never raises out:
a missing store, a failed read, or an empty Template table returns with
nothing written; on a nonempty table the first row is stored and the
writes happen in source order until a conversion raises — int() on
insert_ms_scan or number_of_slices stops before any parameter write,
the .1f format on a text or NULL isolation_mz stops after the
calc_ms1_scans and calc_ramps writes, leaving those two partial
writes in place. -/
def processDiagonalPasefData (params : Params) (src : SyncSource) :
    Params × Option DiagRow :=
  match src with
  | .missing => (params, none)
  | .unreadable => (params, none)
  | .table [] => (params, none)
  | .table (p :: _) =>
    match pyIntCell p.insertMsScan with
    | none => (params, some p)
    | some ms1 =>
      match pyIntCell p.numberOfSlices with
      | none => (params, some p)
      | some nr =>
        let base := params ++ [("calc_ms1_scans", Value.int ms1), ("calc_ramps", .int nr)]
        match p.isolationMz with
        | .num isoMz =>
          (base ++ diagWrites base ms1 nr isoMz p.slope p.origin p.widthMz, some p)
        | _ => (base, some p)

/-- The two auxiliary stores locatable from the document folder. -/
structure AuxStores where
  dia : DiaSource := .missing
  sync : SyncSource := .missing

/-- A segment of the loaded dataset (data_model.Segment restricted to
the fields the engine populates). -/
structure Segment where
  startTime : Rat
  endTime : Rat
  endTimeDisplay : String
  workflowName : Option String := none
  scanModeId : Option Int := none
  ionPolarity : String := ""
  parameters : Params := []
  isCalibrationSegment : Bool := false
  pasefPolygonData : Option (List Rat × List Rat) := none
  diaWindowsData : Option (List DiaRow) := none
  diagonalPasefData : Option DiagRow := none
deriving DecidableEq

/-- Fresh segment: the initial display is the formatted end time (the
infinite-end branch of the Python initializer is unreachable since the
parsed end time is always finite). -/
def mkSegment (startT endT : Rat) : Segment :=
  { startTime := startT, endTime := endT, endTimeDisplay := fmtFixed 2 endT ++ " min" }

/-- First conditional-logic pass: a set duty-cycle lock copies the ramp
time into the accumulation time. -/
def dutyCycleLockPass (params : Params) : Params :=
  if pget params "IMS_imeX_DutyCycleLock" == some (.s "1") then
    match pget params "IMS_imeX_RampTime" with
    | some rt => pset params "IMS_imeX_AccumulationTime" rt
    | none => params
  else params

/-- The condition (icc_mode and icc_mode != chr(48)) of the second pass:
a truthy resolved mode different from the string "0". -/
def iccActive (o : Option Value) : Bool :=
  match o with
  | some v => pyTruthy v && v != .s "0"
  | none => false

/-- One conditional overwrite of the ion-current-control pass: the key
is set to the literal "variable" only when it is present. -/
def condOverwrite (params : Params) (key : String) : Params :=
  if pcontains params key = true then pset params key (.s "variable") else params

/-- Second conditional-logic pass: an active ion-current-control mode
overwrites accumulation time, duty-cycle lock and cycle time with the
literal "variable", each only when the key is present. -/
def iccPass (params : Params) : Params :=
  if iccActive (pget params "IMSICC_Mode") then
    condOverwrite (condOverwrite (condOverwrite params "IMS_imeX_AccumulationTime")
      "IMS_imeX_DutyCycleLock") "calc_cycle_time"
  else params

/-- The conditional-logic pass of _apply_conditional_logic: duty-cycle
lock copy first, then the ion-current-control overwrite. -/
def applyConditionalLogic (params : Params) : Params := iccPass (dutyCycleLockPass params)

/-- The derivation pass of _perform_calculations on the parameter dict
of a segment: delete every calculated key, write the segment-level
calculated fields, the energy-ramping and stepping summaries, then the
scan-mode-specific derivation selected by the numeric scan mode. -/
def performCalculations (cfg : Config) (seg : Segment) (aux : AuxStores)
    (polarityMap : List (String × String)) : Segment :=
  let params0 := seg.parameters.filter (fun p => !isCalcKey p.1)
  let ionPol := pyLower ((mget polarityMap (pyStrOpt (pget params0 "Mode_IonPolarity"))).getD "Unknown")
  let wfv : Value := match seg.workflowName with | some w => .s w | none => .null
  let params2 := params0 ++
    [("calc_scan_mode", wfv),
     ("calc_segment_start_time", .s (fmtFixed 2 seg.startTime ++ " min")),
     ("calc_segment_end_time", .s seg.endTimeDisplay)]
  let params3 := params2 ++ energyRampingWrites cfg.allDefinitions params2
  let params4 := params3 ++ msmsSteppingWrites cfg.allDefinitions params3
  match seg.scanModeId with
  | some 6 =>
    let r := processPasefData params4
    { seg with ionPolarity := ionPol, parameters := r.1, pasefPolygonData := r.2 }
  | some 9 =>
    let r := processDiaPasefData params4 aux.dia
    { seg with ionPolarity := ionPol, parameters := r.1, diaWindowsData := r.2 }
  | some 11 =>
    let r := processDiagonalPasefData params4 aux.sync
    { seg with ionPolarity := ionPol, parameters := r.1, diagonalPasefData := r.2 }
  | _ => { seg with ionPolarity := ionPol, parameters := params4 }

/-- Load failure modes of the loader that the embedding covers. -/
inductive LoadError where
  | parsingError (msg : String)
  | unsupportedScanMode (code : String) (startTime : Rat)
deriving DecidableEq, Repr

/-- Decidable equality of load results, for concrete-input checking. -/
instance {e a : Type} [DecidableEq e] [DecidableEq a] : DecidableEq (Except e a) :=
  fun x y =>
    match x, y with
    | .error u, .error v =>
      match decEq u v with
      | isTrue h => isTrue (by rw [h])
      | isFalse h => isFalse (fun he => by cases he; exact h rfl)
    | .ok u, .ok v =>
      match decEq u v with
      | isTrue h => isTrue (by rw [h])
      | isFalse h => isFalse (fun he => by cases he; exact h rfl)
    | .error _, .ok _ => isFalse (fun he => Except.noConfusion he)
    | .ok _, .error _ => isFalse (fun he => Except.noConfusion he)

/-- The values found in the scope of one segment: the polarity context
is the value of the Mode_IonPolarity element of this scope, falling
back to the inherited value, decoded through the polarity map; the full
catalog is resolved against the scope with that context.  This is the
parse step of _parse_and_populate_segment before the merge. -/
def segmentParsedValues (cfg : Config) (segScope : XML) (instr : Option XML)
    (polarityMap : List (String × String)) (prev : Params) : Params :=
  let curPolVal := getValueFromElement (findPN "Mode_IonPolarity" segScope) none
  let finalPolRaw := match curPolVal with | some v => some v | none => pget prev "Mode_IonPolarity"
  let polarityString := mget polarityMap (pyStrOpt finalPolRaw)
  parseParametersForScope cfg.allDefinitions segScope instr cfg.allDefinitions polarityString none

/-- The segment population pass (_parse_and_populate_segment): merge
the inherited parameters with the values of the own scope, run the
dependency reduction loop, decode the scan mode (failing with
UnsupportedScanModeError carrying the offending code and the segment
start time), derive, apply conditional logic, filter to the workflow
view, and return the populated segment together with the unfiltered
dict that seeds the next segment. -/
def populateSegment (cfg : Config) (segScope : XML) (instr : Option XML)
    (scanModeMap polarityMap : List (String × String)) (aux : AuxStores)
    (prev : Params) (seg : Segment) : Except LoadError (Segment × Params) :=
  let parsed := segmentParsedValues cfg segScope instr polarityMap prev
  let merged := prev ++ parsed
  let u0 := reduceLoop cfg.allDefinitions merged
  let scanModeVal := pget u0 "Mode_ScanMode"
  let code := pyStrOpt scanModeVal
  match mget scanModeMap code with
  | none => .error (.unsupportedScanMode code seg.startTime)
  | some wf =>
    let seg1 := { seg with
                  workflowName := some wf
                  scanModeId := scanModeVal.bind toPyInt
                  parameters := u0 }
    let seg2 := performCalculations cfg seg1 aux polarityMap
    let unfiltered := applyConditionalLogic seg2.parameters
    let allowed := (mgetL cfg.parameterDefinitions "__GENERAL__").getD [] ++
      (mgetL cfg.parameterDefinitions wf).getD []
    let filtered := unfiltered.filter (fun p => allowed.contains p.1 || isCalcKey p.1)
    let seg3 := { seg2 with
                  parameters := filtered
                  isCalibrationSegment := pget unfiltered "Calibration_MarkSegment" == some (.s "1") }
    .ok (seg3, unfiltered)

/-- Python (x or "0") on the optional document-level polarity value. -/
def pyOrDefaultPolarity (o : Option Value) : Value :=
  match o with
  | some v => if pyTruthy v then v else .s "0"
  | none => .s "0"

/-- The fully resolved document-level (pre-segment) scope that seeds the
first explicit segment. -/
def docSeedParams (cfg : Config) (root : XML) : Params :=
  match findChild root "method" with
  | none => []
  | some methodEl =>
    let polarityMap := ((defLookup cfg.allDefinitions "Mode_IonPolarity").map
      (fun d => d.valueMap)).getD []
    let gv := pyOrDefaultPolarity (getValueFromElement (findPN "Mode_IonPolarity" methodEl) none)
    let globalPolStr := mget polarityMap (pyStrV gv)
    parseParametersForScope cfg.allDefinitions methodEl (findChild root "instrument")
      cfg.allDefinitions globalPolStr none

/-- The explicit-segment loop of load_dataset_from_folder: walk the
segment elements in document order, thread the end times and the
unfiltered parameter dicts, and keep each populated segment paired
with its unfiltered dict. -/
def loadExplicitSegments (cfg : Config) (instr : Option XML)
    (scanModeMap polarityMap : List (String × String)) (aux : AuxStores) :
    Rat → Params → List XML → Except LoadError (List (Segment × Params))
  | _, _, [] => .ok []
  | lastEnd, prev, segEl :: rest =>
    let endTime := (pyFloat ((segEl.attr "endtime").getD "-1")).getD (-1)
    let seg0 := mkSegment lastEnd endTime
    let seg := if endTime < 0 then { seg0 with endTimeDisplay := "Open End" } else seg0
    match populateSegment cfg segEl instr scanModeMap polarityMap aux prev seg with
    | .error e => .error e
    | .ok r =>
      let lastEnd2 := if endTime ≥ 0 then endTime else lastEnd
      match loadExplicitSegments cfg instr scanModeMap polarityMap aux lastEnd2 r.2 rest with
      | .error e => .error e
      | .ok l => .ok (r :: l)

/-- The segment-building portion of load_dataset_from_folder, with the
parsed document root and the auxiliary stores as inputs (file discovery
and XML parsing are input-side I/O).  Zero segment elements produce the
single implicit whole-document segment with start 0, the open-end
sentinel -1 and the display N/A. -/
def loadSegments (cfg : Config) (root : XML) (aux : AuxStores) :
    Except LoadError (List (Segment × Params)) :=
  let scanModeMap := ((defLookup cfg.allDefinitions "Mode_ScanMode").map
    (fun d => d.valueMap)).getD []
  let polarityMap := ((defLookup cfg.allDefinitions "Mode_IonPolarity").map
    (fun d => d.valueMap)).getD []
  let segEls := segElements root
  let instr := findChild root "instrument"
  match findChild root "method" with
  | none => .error (.parsingError "Could not find the method tag in the file.")
  | some methodEl =>
    if segEls.isEmpty then
      match populateSegment cfg methodEl instr scanModeMap polarityMap aux []
          { mkSegment 0 (-1) with endTimeDisplay := "N/A" } with
      | .error e => .error e
      | .ok r => .ok [r]
    else
      loadExplicitSegments cfg instr scanModeMap polarityMap aux 0 (docSeedParams cfg root) segEls

/-- A dataset as parse_additional_parameters sees it: the instrument
scope, the default parameter definitions, and per segment its scope
element and its current parameter dict. -/
structure PDataset where
  instrumentScope : Option XML := none
  defaultParams : List ParamDef := []
  segs : List (XML × Params) := []

/-- The per-segment loop body of parse_additional_parameters: resolve
the polarity from the threaded dict and the own scope, parse the
default plus additional parameters, update the segment dict first with
the threaded dict and then with the new values, and thread a copy. -/
def parseAdditionalGo (cfg : Config) (instr : Option XML) (allParams : List ParamDef)
    (polarityMap : List (String × String)) (ionSource : Option String) :
    Params → List (XML × Params) → List (XML × Params)
  | _, [] => []
  | lastParams, sp :: rest =>
    let curPolVal := getValueFromElement (findPN "Mode_IonPolarity" sp.1) none
    let finalPolRaw := match curPolVal with | some v => some v | none => pget lastParams "Mode_IonPolarity"
    let polStr := mget polarityMap (pyStrOpt finalPolRaw)
    let newVals := parseParametersForScope cfg.allDefinitions sp.1 instr allParams polStr ionSource
    let updated := sp.2 ++ lastParams ++ newVals
    (sp.1, updated) :: parseAdditionalGo cfg instr allParams polarityMap ionSource updated rest

/-- Re-resolution of additional parameters against the parsed tree
(parse_additional_parameters): a guard returns the dataset unchanged
when nothing is requested, otherwise every segment dict is updated in
order with the threaded predecessor dict and the newly parsed values. -/
def parseAdditionalParameters (cfg : Config) (ds : PDataset)
    (additional : List ParamDef) (ionSource : Option String) : PDataset :=
  if additional.isEmpty then ds
  else
    let polarityMap := ((defLookup cfg.allDefinitions "Mode_IonPolarity").map
      (fun d => d.valueMap)).getD []
    let newSegs := parseAdditionalGo cfg ds.instrumentScope (ds.defaultParams ++ additional)
      polarityMap ionSource [] ds.segs
    { ds with segs := newSegs }

/-- Pointwise equality of two parameter dicts: this is exactly equality
of the corresponding Python dicts (which ignores insertion order). -/
def ParamsEquiv (a b : Params) : Prop := ∀ k, pget a k = pget b k

/-- Pairwise correspondence of the segment lists of two datasets: same
scopes and equal parameter dicts. -/
def SegsEquiv (a b : List (XML × Params)) : Prop :=
  List.Forall₂ (fun x y => x.1 = y.1 ∧ ParamsEquiv x.2 y.2) a b

/-- Steps-per-cycle following the words of the spec claim, for
comparison with the code: the modal (strictly most frequent) per-cycle
row count among the Type 1 rows, when one exists. -/
def stepsPerCycleModalSpec (pasef : List DiaRow) : Option Int :=
  let cids := pasef.map (fun r => r.cycleId)
  let counts := cids.dedup.map (fun c => (cids.count c : Int))
  counts.dedup.find? (fun v => counts.dedup.all (fun w => w == v || counts.count w < counts.count v))

/-- Whether every entry of a write list has a calculated (calc_) key. -/
def CalcKeys (w : List (String × Value)) : Prop :=
  ∀ p ∈ w, isCalcKey p.1 = true

/-- Whether a load succeeded. -/
def loadOk (r : Except LoadError (List (Segment × Params))) : Bool :=
  match r with
  | .ok _ => true
  | .error _ => false

/-- Unfiltered parameter dict of segment i of a load result. -/
def segParamsAt (r : Except LoadError (List (Segment × Params))) (i : Nat) : Params :=
  match r with
  | .ok l => ((l.get? i).map (fun p => p.2)).getD []
  | .error _ => []

/-- Displayed (filtered) parameter dict of segment i of a load result. -/
def segDisplayParamsAt (r : Except LoadError (List (Segment × Params))) (i : Nat) : Params :=
  match r with
  | .ok l => ((l.get? i).map (fun p => p.1.parameters)).getD []
  | .error _ => []

/-- Concrete-input helper: a parameter element with a scalar value. -/
def pEl (pn v : String) : XML := .elem "para" [("permname", pn), ("value", v)] none .nil

/-- Auxiliary stores with both files absent. -/
def auxNone : AuxStores := {}

/-- Concrete catalog for the inheritance counterexample: a scan-mode
table and the three duty-cycle parameters. -/
def cfgC1 : Config :=
  { allDefinitions :=
      [{ permname := "Mode_ScanMode", valueMap := [("0", "MS")] },
       { permname := "IMS_imeX_DutyCycleLock" },
       { permname := "IMS_imeX_RampTime" },
       { permname := "IMS_imeX_AccumulationTime" }],
    parameterDefinitions :=
      [("__GENERAL__",
        ["Mode_ScanMode", "IMS_imeX_DutyCycleLock", "IMS_imeX_RampTime",
         "IMS_imeX_AccumulationTime"])] }

/-- Concrete two-segment document: segment 1 sets the duty-cycle lock
and a ramp time of 5, segment 2 overrides only the ramp time to 7. -/
def docC1 : XML :=
  .elem "root" [] none (xl
    [.elem "method" [] none (xl
      [pEl "Mode_ScanMode" "0",
       .elem "qtofimpactemacq" [] none (xl
         [.elem "timetable" [] none (xl
           [.elem "segment" [("endtime", "5")] none (xl
             [pEl "IMS_imeX_DutyCycleLock" "1", pEl "IMS_imeX_RampTime" "5"]),
            .elem "segment" [("endtime", "-1")] none (xl
             [pEl "IMS_imeX_RampTime" "7"])])])])])

/-- The scope element of the second segment of docC1. -/
def segScopeC1b : XML :=
  .elem "segment" [("endtime", "-1")] none (xl [pEl "IMS_imeX_RampTime" "7"])

/-- Concrete scope for the inheritance witness: resolves the scan mode
and one parameter B, while A is only inherited. -/
def scopeW1 : XML :=
  .elem "segment" [] none (xl [pEl "Mode_ScanMode" "0", pEl "B" "2"])

/-- Catalog for the inheritance witness. -/
def cfgW1 : Config :=
  { allDefinitions :=
      [{ permname := "Mode_ScanMode", valueMap := [("0", "MS")] },
       { permname := "A" }, { permname := "B" }] }

/-- Catalog for the specificity counterexample: one plain parameter. -/
def cfgC2 : Config := { allDefinitions := [{ permname := "x" }] }

/-- First conditional-override scope in document order, both polarity
and source matching, carrying x with value a. -/
def depC2A : XML :=
  .elem "dependent" [("polarity", "positive"), ("source", "esi")] none (xl [pEl "x" "a"])

/-- Second conditional-override scope in document order, both polarity
and source matching, carrying x with value b. -/
def depC2B : XML :=
  .elem "dependent" [("polarity", "positive"), ("source", "esi")] none (xl [pEl "x" "b"])

/-- The scope holding the two competing overrides. -/
def scopeC2 : XML := .elem "method" [] none (xl [depC2A, depC2B])

/-- The requested parameter of the specificity counterexample. -/
def pC2 : ParamDef := { permname := "x" }

/-- Concrete document with zero segment elements. -/
def docC5 : XML :=
  .elem "root" [] none (xl [.elem "method" [] none (xl [pEl "Mode_ScanMode" "0"])])

/-- The computed result of loading docC5 (extraction for the witness). -/
def resC5 : List (Segment × Params) :=
  match loadSegments cfgC1 docC5 auxNone with
  | .ok r => r
  | .error _ => []

/-- Scope whose resolved scan mode 99 has no table entry. -/
def scopeC6 : XML := .elem "method" [] none (xl [pEl "Mode_ScanMode" "99"])

/-- Catalog for the diagonal-PASEF degradation counterexample. -/
def cfgC7 : Config :=
  { allDefinitions := [{ permname := "Mode_ScanMode", valueMap := [("11", "diagonal-PASEF")] }] }

/-- Document whose single implicit segment is a diagonal-PASEF segment;
the synchro auxiliary store is absent in auxNone. -/
def docC7 : XML :=
  .elem "root" [] none (xl [.elem "method" [] none (xl [pEl "Mode_ScanMode" "11"])])

/-- Concrete PASEF segment parameters for the polygon scenario. -/
def paramsC8 : Params :=
  [("IMS_PolygonFilter_Mass", .arr [some "100.0", some "200.0", some "150.0"]),
   ("IMS_PolygonFilter_Mobility", .arr [some "0.6", some "0.9", some "1.2"]),
   ("MSMS_Pasef_NumRampsPerCycle", .s "10"),
   ("IMS_imeX_RampTime", .s "100.0"),
   ("Collision_QuenchTime_Set", .s "8.0")]

/-- Concrete-input helper: a dia table row with a type and a cycle id. -/
def mkDia (i t c : Int) : DiaRow :=
  { idn := i, typ := t, cycleId := c, oneOverK0Start := 6/10, oneOverK0End := 14/10,
    isolationMz := 500, isolationWidth := 25 }

/-- Dia table on which maximum and modal per-cycle counts differ: cycle
1 has five rows, cycles 2 and 3 have two rows each (all Type 1). -/
def rowsC9 : List DiaRow :=
  [mkDia 1 1 1, mkDia 2 1 1, mkDia 3 1 1, mkDia 4 1 1, mkDia 5 1 1,
   mkDia 6 1 2, mkDia 7 1 2, mkDia 8 1 3, mkDia 9 1 3]

/-- Dia table of the spec scenario: two MS1 rows and six PASEF rows
split evenly across two cycle ids. -/
def rowsC9W : List DiaRow :=
  [mkDia 1 0 0, mkDia 2 0 0,
   mkDia 3 1 1, mkDia 4 1 1, mkDia 5 1 1,
   mkDia 6 1 2, mkDia 7 1 2, mkDia 8 1 2]

/-- Concrete parameters for the conditional-logic witness. -/
def paramsC4 : Params :=
  [("IMSICC_Mode", .s "1"), ("IMS_imeX_AccumulationTime", .s "50"),
   ("IMS_imeX_DutyCycleLock", .s "0"), ("calc_cycle_time", .s "0.55 s")]

/-- Concrete parameters for the lock-then-overwrite witness. -/
def paramsC10 : Params :=
  [("IMS_imeX_DutyCycleLock", .s "1"), ("IMS_imeX_RampTime", .s "100"),
   ("IMSICC_Mode", .s "1")]

/-- Ranked candidate scopes following the words of the spec claim, for
comparison with rankedDependentScopes taken from the code: the same
three specificity buckets, but with every bucket (the rank-3 bucket
included) keeping the encounter (document) order of its scopes. -/
def rankedDependentScopesSpec (root : XML) (pol src : Option String) : List (Nat × XML) :=
  let ds := iterTag root "dependent"
  ((ds.filter (fun d => condMatch (d.attr "polarity") pol &&
      condMatch (d.attr "source") src)).map (fun d => ((3 : Nat), d))) ++
    ((ds.filter (fun d => condMatch (d.attr "polarity") pol &&
      !condMatch (d.attr "source") src)).map (fun d => ((2 : Nat), d))) ++
    ((ds.filter (fun d => !condMatch (d.attr "polarity") pol &&
      condMatch (d.attr "source") src)).map (fun d => ((1 : Nat), d)))

/-- Scan-mode id of segment i of a load result. -/
def segModeAt (r : Except LoadError (List (Segment × Params))) (i : Nat) : Option Int :=
  match r with
  | .ok l => ((l.get? i).map (fun p => p.1.scanModeId)).getD none
  | .error _ => none

/-- Inherited parameters of the inheritance witness: one parameter A
that the witness scope never mentions. -/
def prevW1 : Params := [("A", .s "1")]

/-- The populated segment of the inheritance witness. -/
def resW1 : Except LoadError (Segment × Params) :=
  populateSegment cfgW1 scopeW1 none [("0", "MS")] [] auxNone prevW1 (mkSegment 0 5)

/-- The extracted segment and seed dict of the inheritance witness. -/
def suW1 : Segment × Params :=
  match resW1 with
  | .ok r => r
  | .error _ => (mkSegment 0 0, [])

/-- A diagonal template row whose count cells are numeric but whose
isolation m/z is text: the .1f format on it raises into the blanket
except after the two count writes. -/
def rowC7 : DiagRow :=
  { slope := some 1, origin := some 0, widthMz := some 1,
    isolationMz := .txt "wide", numberOfSlices := .num 4, insertMsScan := .num 2 }

theorem pget_append (a b : Params) (k : String) :
    pget (a ++ b) k = (pget b k).or (pget a k) := by
  induction a with
  | nil =>
    show pget b k = (pget b k).or (pget [] k)
    cases pget b k <;> rfl
  | cons p a ih =>
    show (match pget (a ++ b) k with
      | some v => some v
      | none => if p.1 = k then some p.2 else none) = (pget b k).or (pget (p :: a) k)
    rw [ih]
    cases hb : pget b k <;> cases ha : pget a k <;>
      simp only [pget, ha, Option.or] <;> rfl

theorem pget_pset_self (d : Params) (k : String) (v : Value) :
    pget (pset d k v) k = some v := by
  show pget (d ++ [(k, v)]) k = some v
  rw [pget_append]
  simp [pget, Option.or]

theorem pget_pset_ne (d : Params) (k' k : String) (v : Value) (h : k' ≠ k) :
    pget (pset d k' v) k = pget d k := by
  show pget (d ++ [(k', v)]) k = pget d k
  rw [pget_append]
  have : pget [(k', v)] k = none := by simp [pget, if_neg h]
  rw [this]
  cases pget d k <;> rfl

theorem pget_calcKeys_none (w : List (String × Value)) (hw : CalcKeys w) (k : String)
    (hk : isCalcKey k = false) : pget w k = none := by
  induction w with
  | nil => rfl
  | cons p w ih =>
    have hp := hw p (by simp)
    have hrest : CalcKeys w := fun q hq => hw q (by simp [hq])
    show (match pget w k with
      | some v => some v
      | none => if p.1 = k then some p.2 else none) = none
    rw [ih hrest]
    have hne : p.1 ≠ k := fun he => by rw [he, hk] at hp; cases hp
    simp [if_neg hne]

theorem pget_append_calc (d : Params) (w : List (String × Value)) (k : String)
    (hw : CalcKeys w) (hk : isCalcKey k = false) :
    pget (d ++ w) k = pget d k := by
  rw [pget_append, pget_calcKeys_none w hw k hk]
  cases pget d k <;> rfl

theorem calcKeys_append (a b : List (String × Value)) (ha : CalcKeys a) (hb : CalcKeys b) :
    CalcKeys (a ++ b) := by
  intro p hp
  rcases List.mem_append.mp hp with h | h
  · exact ha p h
  · exact hb p h

theorem pget_filter_notcalc (d : Params) (k : String) (hk : isCalcKey k = false) :
    pget (d.filter (fun p => !isCalcKey p.1)) k = pget d k := by
  induction d with
  | nil => rfl
  | cons p d ih =>
    by_cases hc : isCalcKey p.1 = true
    · have hne : p.1 ≠ k := fun he => by rw [he, hk] at hc; cases hc
      rw [List.filter_cons]
      simp only [hc, Bool.not_true, Bool.false_eq_true, if_false]
      rw [ih]
      show pget d k = pget (p :: d) k
      cases hd : pget d k
      · show _ = (match pget d k with
          | some v => some v
          | none => if p.1 = k then some p.2 else none)
        rw [hd]
        simp [if_neg hne]
      · show _ = (match pget d k with
          | some v => some v
          | none => if p.1 = k then some p.2 else none)
        rw [hd]
    · simp only [Bool.not_eq_true] at hc
      rw [List.filter_cons]
      simp only [hc, Bool.not_false, if_pos]
      show (match pget (d.filter (fun p => !isCalcKey p.1)) k with
        | some v => some v
        | none => if p.1 = k then some p.2 else none) =
        (match pget d k with
        | some v => some v
        | none => if p.1 = k then some p.2 else none)
      rw [ih]

theorem pcontains_pset_mono (d : Params) (k k' : String) (v : Value)
    (h : pcontains d k = true) : pcontains (pset d k' v) k = true := by
  simp only [pcontains, pset, List.any_append]
  simp only [pcontains] at h
  rw [h]
  rfl

theorem calcKeys_diaNAWrites (b : Bool) : CalcKeys (diaNAWrites b) := by
  intro p hp
  cases b <;> simp only [diaNAWrites, List.cons_append, List.nil_append] at hp <;>
    fin_cases hp <;> rfl

theorem calcKeys_energyRampingWrites (cfg : List ParamDef) (d : Params) :
    CalcKeys (energyRampingWrites cfg d) := by
  intro p hp
  simp only [energyRampingWrites] at hp
  by_cases hA : (!(pget d "Energy_Ramping_Advanced_Settings_Active" == some (Value.s "1"))) = true
  · rw [if_pos hA] at hp
    fin_cases hp <;> rfl
  · rw [if_neg hA] at hp
    fin_cases hp <;> rfl

theorem calcKeys_msmsSteppingWrites (cfg : List ParamDef) (d : Params) :
    CalcKeys (msmsSteppingWrites cfg d) := by
  intro p hp
  simp only [msmsSteppingWrites] at hp
  by_cases hA : (pget d "Ims_Stepping_Active" != some (Value.s "1")) = true
  · rw [if_pos hA] at hp
    fin_cases hp <;> rfl
  · rw [if_neg hA] at hp
    fin_cases hp <;> rfl

theorem calcKeys_diaTailWrites (d : Params) (rows : List DiaRow) :
    CalcKeys (diaTailWrites d rows) := by
  intro p hp
  cases hps : rows.filter (fun r => r.typ == 1) with
  | nil =>
    simp only [diaTailWrites, hps] at hp
    exact calcKeys_diaNAWrites true p hp
  | cons q0 qs =>
    simp only [diaTailWrites, hps] at hp
    fin_cases hp <;> rfl

theorem calcKeys_diagAreaImWrites (a b : Option Rat) : CalcKeys (diagAreaImWrites a b) := by
  intro p hp
  rcases a with _ | x <;> rcases b with _ | y <;>
    simp only [diagAreaImWrites] at hp <;> fin_cases hp <;> rfl

theorem calcKeys_diagAreaMzWrites (a b so og wm : Option Rat) (nr : Int) (isoMz : Rat) :
    CalcKeys (diagAreaMzWrites a b so og wm nr isoMz) := by
  intro q hq
  unfold diagAreaMzWrites at hq
  split at hq
  · split at hq
    · split at hq
      · fin_cases hq <;> rfl
      · fin_cases hq <;> rfl
    · fin_cases hq <;> rfl
  · cases hq

theorem calcKeys_diagWrites (d : Params) (ms1 nr : Int) (isoMz : Rat)
    (so og wm : Option Rat) : CalcKeys (diagWrites d ms1 nr isoMz so og wm) := by
  intro q hq
  simp only [diagWrites, List.append_assoc, List.mem_append, List.mem_cons,
    List.not_mem_nil, or_false] at hq
  rcases hq with h | h | h | h
  · rw [h]; rfl
  · exact calcKeys_diagAreaImWrites _ _ q h
  · exact calcKeys_diagAreaMzWrites _ _ _ _ _ _ _ q h
  · rw [h]; rfl

theorem isCalcKey_ne (k s : String) (hk : isCalcKey k = false) (hs : isCalcKey s = true) :
    s ≠ k := fun he => by rw [he, hk] at hs; cases hs

theorem pget_processPasefData (d : Params) (k : String) (hk : isCalcKey k = false) :
    pget (processPasefData d).1 k = pget d k := by
  simp only [processPasefData]
  exact pget_pset_ne _ _ _ _ (isCalcKey_ne k _ hk rfl)

theorem pget_processDiaPasefData (d : Params) (src : DiaSource) (k : String)
    (hk : isCalcKey k = false) : pget (processDiaPasefData d src).1 k = pget d k := by
  cases src with
  | missing => exact pget_append_calc _ _ _ (calcKeys_diaNAWrites false) hk
  | unreadable => exact pget_append_calc _ _ _ (calcKeys_diaNAWrites false) hk
  | table rows =>
    cases rows with
    | nil => exact pget_append_calc _ _ _ (calcKeys_diaNAWrites false) hk
    | cons r0 rrest =>
      simp only [processDiaPasefData]
      refine pget_append_calc _ _ _ ?_ hk
      intro p hp
      rcases List.mem_cons.mp hp with h | h
      · rw [h]; rfl
      · exact calcKeys_diaTailWrites d _ p h

theorem pget_processDiagonalPasefData (d : Params) (src : SyncSource) (k : String)
    (hk : isCalcKey k = false) : pget (processDiagonalPasefData d src).1 k = pget d k := by
  have hcalc2 : ∀ a b : Int,
      CalcKeys [("calc_ms1_scans", Value.int a), ("calc_ramps", Value.int b)] := by
    intro a b q hq
    fin_cases hq <;> rfl
  cases src with
  | missing => rfl
  | unreadable => rfl
  | table rows =>
    cases rows with
    | nil => rfl
    | cons p prest =>
      simp only [processDiagonalPasefData]
      cases h1 : pyIntCell p.insertMsScan with
      | none => rfl
      | some ms1 =>
        cases h2 : pyIntCell p.numberOfSlices with
        | none => rfl
        | some nr =>
          cases h3 : p.isolationMz with
          | num isoMz =>
            exact (pget_append_calc
              (d ++ [("calc_ms1_scans", Value.int ms1), ("calc_ramps", Value.int nr)])
              (diagWrites
                (d ++ [("calc_ms1_scans", Value.int ms1), ("calc_ramps", Value.int nr)])
                ms1 nr isoMz p.slope p.origin p.widthMz) k
              (calcKeys_diagWrites _ _ _ _ _ _ _) hk).trans
              (pget_append_calc d _ k (hcalc2 ms1 nr) hk)
          | txt s => exact pget_append_calc d _ k (hcalc2 ms1 nr) hk
          | null => exact pget_append_calc d _ k (hcalc2 ms1 nr) hk

theorem pget_dutyCycleLockPass (d : Params) (k : String)
    (h1 : k ≠ "IMS_imeX_AccumulationTime") :
    pget (dutyCycleLockPass d) k = pget d k := by
  unfold dutyCycleLockPass
  split
  · split
    · exact pget_pset_ne _ _ _ _ (Ne.symm h1)
    · rfl
  · rfl

theorem condOverwrite_sets (d : Params) (key : String) (h : pcontains d key = true) :
    pget (condOverwrite d key) key = some (.s "variable") := by
  unfold condOverwrite
  rw [if_pos h, pget_pset_self]

theorem condOverwrite_pget_ne (d : Params) (key k : String) (h : key ≠ k) :
    pget (condOverwrite d key) k = pget d k := by
  unfold condOverwrite
  split
  · exact pget_pset_ne _ _ _ _ h
  · rfl

theorem condOverwrite_contains_mono (d : Params) (key k : String)
    (h : pcontains d k = true) : pcontains (condOverwrite d key) k = true := by
  unfold condOverwrite
  split
  · exact pcontains_pset_mono _ _ _ _ h
  · exact h

theorem pget_iccPass (d : Params) (k : String)
    (h1 : k ≠ "IMS_imeX_AccumulationTime") (h2 : k ≠ "IMS_imeX_DutyCycleLock")
    (h3 : k ≠ "calc_cycle_time") :
    pget (iccPass d) k = pget d k := by
  unfold iccPass
  split
  · rw [condOverwrite_pget_ne _ _ _ (Ne.symm h3), condOverwrite_pget_ne _ _ _ (Ne.symm h2),
      condOverwrite_pget_ne _ _ _ (Ne.symm h1)]
  · rfl

theorem pget_iccPass_target (d : Params) (hicc : iccActive (pget d "IMSICC_Mode") = true)
    (k : String)
    (hk : k = "IMS_imeX_AccumulationTime" ∨ k = "IMS_imeX_DutyCycleLock" ∨ k = "calc_cycle_time")
    (hc : pcontains d k = true) :
    pget (iccPass d) k = some (.s "variable") := by
  unfold iccPass
  rw [if_pos hicc]
  rcases hk with rfl | rfl | rfl
  · rw [condOverwrite_pget_ne _ _ _ (by decide), condOverwrite_pget_ne _ _ _ (by decide)]
    exact condOverwrite_sets _ _ hc
  · rw [condOverwrite_pget_ne _ _ _ (by decide)]
    exact condOverwrite_sets _ _ (condOverwrite_contains_mono _ _ _ hc)
  · exact condOverwrite_sets _ _
      (condOverwrite_contains_mono _ _ _ (condOverwrite_contains_mono _ _ _ hc))

theorem pget_applyConditionalLogic (d : Params) (k : String)
    (h1 : k ≠ "IMS_imeX_AccumulationTime") (h2 : k ≠ "IMS_imeX_DutyCycleLock")
    (h3 : k ≠ "calc_cycle_time") :
    pget (applyConditionalLogic d) k = pget d k := by
  unfold applyConditionalLogic
  rw [pget_iccPass _ _ h1 h2 h3, pget_dutyCycleLockPass _ _ h1]

theorem pget_performCalculations (cfg : Config) (seg : Segment) (aux : AuxStores)
    (pm : List (String × String)) (k : String) (hk : isCalcKey k = false) :
    pget (performCalculations cfg seg aux pm).parameters k = pget seg.parameters k := by
  have calc3 : ∀ v1 v2 v3 : Value, CalcKeys
      [("calc_scan_mode", v1), ("calc_segment_start_time", v2),
       ("calc_segment_end_time", v3)] := by
    intro v1 v2 v3 p hp
    fin_cases hp <;> rfl
  unfold performCalculations
  split <;> split <;> (try dsimp only) <;>
    first
      | (rw [pget_processPasefData _ _ hk,
            pget_append_calc _ _ _ (calcKeys_msmsSteppingWrites _ _) hk,
            pget_append_calc _ _ _ (calcKeys_energyRampingWrites _ _) hk,
            pget_append_calc _ _ _ (calc3 _ _ _) hk, pget_filter_notcalc _ _ hk])
      | (rw [pget_processDiaPasefData _ _ _ hk,
            pget_append_calc _ _ _ (calcKeys_msmsSteppingWrites _ _) hk,
            pget_append_calc _ _ _ (calcKeys_energyRampingWrites _ _) hk,
            pget_append_calc _ _ _ (calc3 _ _ _) hk, pget_filter_notcalc _ _ hk])
      | (rw [pget_processDiagonalPasefData _ _ _ hk,
            pget_append_calc _ _ _ (calcKeys_msmsSteppingWrites _ _) hk,
            pget_append_calc _ _ _ (calcKeys_energyRampingWrites _ _) hk,
            pget_append_calc _ _ _ (calc3 _ _ _) hk, pget_filter_notcalc _ _ hk])
      | (rw [pget_append_calc _ _ _ (calcKeys_msmsSteppingWrites _ _) hk,
            pget_append_calc _ _ _ (calcKeys_energyRampingWrites _ _) hk,
            pget_append_calc _ _ _ (calc3 _ _ _) hk, pget_filter_notcalc _ _ hk])

theorem performCalculations_fields (cfg : Config) (seg : Segment) (aux : AuxStores)
    (pm : List (String × String)) :
    (performCalculations cfg seg aux pm).startTime = seg.startTime ∧
    (performCalculations cfg seg aux pm).endTime = seg.endTime ∧
    (performCalculations cfg seg aux pm).endTimeDisplay = seg.endTimeDisplay := by
  unfold performCalculations
  split <;> split <;> exact ⟨rfl, rfl, rfl⟩

theorem pcontains_pset_self (d : Params) (k : String) (v : Value) :
    pcontains (pset d k v) k = true := by
  simp [pcontains, pset, List.any_append]

theorem pcontains_dutyCycleLockPass_mono (d : Params) (k : String)
    (h : pcontains d k = true) : pcontains (dutyCycleLockPass d) k = true := by
  unfold dutyCycleLockPass
  split
  · split
    · exact pcontains_pset_mono _ _ _ _ h
    · exact h
  · exact h

/-- C4: for every segment whose resolved ion-current-control mode
(IMSICC_Mode) is active (truthy and different from "0"), the
conditional-logic pass leaves each of the three fields
IMS_imeX_AccumulationTime, IMS_imeX_DutyCycleLock and calc_cycle_time
holding the literal string "variable", whatever resolved raw value the
field held before the pass (the field having a resolved value is what
being present in the mapping means). -/
theorem claim_C4_icc_forces_variable (params : Params) (k : String)
    (hicc : iccActive (pget params "IMSICC_Mode") = true)
    (hk : k = "IMS_imeX_AccumulationTime" ∨ k = "IMS_imeX_DutyCycleLock" ∨
      k = "calc_cycle_time")
    (hp : pcontains params k = true) :
    pget (applyConditionalLogic params) k = some (.s "variable") := by
  unfold applyConditionalLogic
  have hicc2 : iccActive (pget (dutyCycleLockPass params) "IMSICC_Mode") = true := by
    rw [pget_dutyCycleLockPass _ _ (by decide)]
    exact hicc
  exact pget_iccPass_target _ hicc2 k hk (pcontains_dutyCycleLockPass_mono _ _ hp)

/-- C4 witness: a concrete mapping with mode "1" and all three fields
present; after the pass the cycle-time field reads "variable". -/
theorem claim_C4_icc_forces_variable_witness :
    iccActive (pget paramsC4 "IMSICC_Mode") = true ∧
    pcontains paramsC4 "calc_cycle_time" = true ∧
    pget (applyConditionalLogic paramsC4) "calc_cycle_time" = some (.s "variable") :=
  ⟨by decide, by decide,
    claim_C4_icc_forces_variable paramsC4 "calc_cycle_time" (by decide)
      (Or.inr (Or.inr rfl)) (by decide)⟩

/-- C10: when the duty-cycle-lock flag resolves to "1" and the
ion-current-control mode is active, the lock copy is applied first (the
accumulation time briefly holds the ramp-time value) and the
ion-current-control overwrite then wins: after the full pass the
accumulation-time field holds the literal "variable". -/
theorem claim_C10_icc_overrides_lock (params : Params) (rt : Value)
    (hl : pget params "IMS_imeX_DutyCycleLock" = some (.s "1"))
    (hrt : pget params "IMS_imeX_RampTime" = some rt)
    (hicc : iccActive (pget params "IMSICC_Mode") = true) :
    pget (dutyCycleLockPass params) "IMS_imeX_AccumulationTime" = some rt ∧
    pget (applyConditionalLogic params) "IMS_imeX_AccumulationTime" = some (.s "variable") := by
  have hcond : (pget params "IMS_imeX_DutyCycleLock" == some (Value.s "1")) = true := by
    rw [hl]; rfl
  have hd1 : dutyCycleLockPass params = pset params "IMS_imeX_AccumulationTime" rt := by
    unfold dutyCycleLockPass
    rw [if_pos hcond, hrt]
  constructor
  · rw [hd1, pget_pset_self]
  · unfold applyConditionalLogic
    have hicc2 : iccActive (pget (dutyCycleLockPass params) "IMSICC_Mode") = true := by
      rw [pget_dutyCycleLockPass _ _ (by decide)]
      exact hicc
    refine pget_iccPass_target _ hicc2 _ (Or.inl rfl) ?_
    rw [hd1]
    exact pcontains_pset_self _ _ _

/-- C10 witness: lock "1", ramp time "100", mode "1"; the lock pass
copies "100" into the accumulation time and the overwrite then leaves
"variable". -/
theorem claim_C10_icc_overrides_lock_witness :
    pget paramsC10 "IMS_imeX_DutyCycleLock" = some (.s "1") ∧
    pget paramsC10 "IMS_imeX_RampTime" = some (.s "100") ∧
    iccActive (pget paramsC10 "IMSICC_Mode") = true ∧
    (pget (dutyCycleLockPass paramsC10) "IMS_imeX_AccumulationTime" = some (.s "100") ∧
     pget (applyConditionalLogic paramsC10) "IMS_imeX_AccumulationTime" = some (.s "variable")) :=
  ⟨by decide, by decide, by decide,
    claim_C10_icc_overrides_lock paramsC10 (.s "100") (by decide) (by decide) (by decide)⟩

theorem populateSegment_ok (cfg : Config) (sc : XML) (instr : Option XML)
    (smm pm : List (String × String)) (aux : AuxStores) (prev : Params) (seg : Segment)
    (su : Segment × Params)
    (h : populateSegment cfg sc instr smm pm aux prev seg = .ok su) :
    su.2 = applyConditionalLogic (performCalculations cfg
      { seg with
        workflowName := mget smm (pyStrOpt (pget (reduceLoop cfg.allDefinitions
          (prev ++ segmentParsedValues cfg sc instr pm prev)) "Mode_ScanMode"))
        scanModeId := (pget (reduceLoop cfg.allDefinitions
          (prev ++ segmentParsedValues cfg sc instr pm prev)) "Mode_ScanMode").bind toPyInt
        parameters := reduceLoop cfg.allDefinitions
          (prev ++ segmentParsedValues cfg sc instr pm prev) } aux pm).parameters ∧
    su.1.startTime = seg.startTime ∧ su.1.endTime = seg.endTime ∧
    su.1.endTimeDisplay = seg.endTimeDisplay := by
  simp only [populateSegment] at h
  split at h
  · cases h
  · rename_i wf heq
    rw [heq]
    cases h
    refine ⟨rfl, ?_, ?_, ?_⟩
    · exact (performCalculations_fields cfg _ aux pm).1
    · exact (performCalculations_fields cfg _ aux pm).2.1
    · exact (performCalculations_fields cfg _ aux pm).2.2

/-- C6: building a segment fails with UnsupportedScanModeError exactly
when the resolved scan-mode value (looked up as a string in the
scan-mode code table) has no entry; the error carries the rendered
offending code and the start of the segment time window, and with a
table entry present the population succeeds. -/
theorem claim_C6_unsupported_scan_mode (cfg : Config) (sc : XML) (instr : Option XML)
    (smm pm : List (String × String)) (aux : AuxStores) (prev : Params) (seg : Segment) :
    (match mget smm (pyStrOpt (pget (reduceLoop cfg.allDefinitions
        (prev ++ segmentParsedValues cfg sc instr pm prev)) "Mode_ScanMode")) with
     | none =>
        populateSegment cfg sc instr smm pm aux prev seg =
          .error (.unsupportedScanMode (pyStrOpt (pget (reduceLoop cfg.allDefinitions
            (prev ++ segmentParsedValues cfg sc instr pm prev)) "Mode_ScanMode")) seg.startTime)
     | some _ => (populateSegment cfg sc instr smm pm aux prev seg).isOk = true) := by
  simp only [populateSegment]
  cases h : mget smm (pyStrOpt (pget (reduceLoop cfg.allDefinitions
      (prev ++ segmentParsedValues cfg sc instr pm prev)) "Mode_ScanMode")) <;> rfl

/-- C5: a well-formed document with zero segment elements loads into
exactly one segment whose start time is 0 and whose end time is the
open-end sentinel -1, displayed with the whole-document open-end marker
N/A. -/
theorem claim_C5_zero_segments (cfg : Config) (root : XML) (aux : AuxStores)
    (res : List (Segment × Params)) (hseg : segElements root = [])
    (h : loadSegments cfg root aux = .ok res) :
    res.length = 1 ∧ ∀ r ∈ res, r.1.startTime = 0 ∧ r.1.endTime = -1 ∧
      r.1.endTimeDisplay = "N/A" := by
  simp only [loadSegments] at h
  split at h
  · cases h
  · rw [hseg] at h
    simp only [List.isEmpty_nil, if_true] at h
    split at h
    · cases h
    · rename_i su hpop
      cases h
      refine ⟨rfl, ?_⟩
      intro r hr
      rw [List.mem_singleton.mp hr]
      have hf := populateSegment_ok cfg _ _ _ _ aux [] _ su hpop
      exact ⟨hf.2.1, hf.2.2.1, hf.2.2.2⟩

section

attribute [local semireducible] Rat.mul Rat.add Rat.sub Rat.inv

/-- C5 witness: the concrete zero-segment document loads successfully
into the single open-ended segment. -/
theorem claim_C5_zero_segments_witness :
    segElements docC5 = [] ∧ loadSegments cfgC1 docC5 auxNone = .ok resC5 ∧
    (resC5.length = 1 ∧ ∀ r ∈ resC5, r.1.startTime = 0 ∧ r.1.endTime = -1 ∧
      r.1.endTimeDisplay = "N/A") :=
  ⟨rfl, by decide, claim_C5_zero_segments cfgC1 docC5 auxNone resC5 rfl (by decide)⟩

end

/-- C8: for a PASEF segment parameter dict whose polygon mass and
mobility parameters both resolve to nonempty numeric lists, the PASEF
derivation stores exactly those two coordinate lists, in input order,
as the polygon data, and writes a cycle time of
(num_ramps + 1) * (ramp_time + quench_time) / 1000 seconds, formatted
to two decimals. -/
theorem claim_C8_pasef_polygon_and_cycle_time (params : Params) (mv bv : Value)
    (ms bs : List Rat) (nr : Int) (rt qt : Rat)
    (hm : pget params "IMS_PolygonFilter_Mass" = some mv)
    (hb : pget params "IMS_PolygonFilter_Mobility" = some bv)
    (hms : floatListFiltered mv = some ms)
    (hbs : floatListFiltered bv = some bs)
    (hne : (!ms.isEmpty && !bs.isEmpty) = true)
    (hnr : toPyInt (pyOrZero (pget params "MSMS_Pasef_NumRampsPerCycle")) = some nr)
    (hrt : toPyFloat (pyOrZero (pget params "IMS_imeX_RampTime")) = some rt)
    (hqt : toPyFloat (pyOrZero (pget params "Collision_QuenchTime_Set")) = some qt) :
    (processPasefData params).2 = some (ms, bs) ∧
    pget (processPasefData params).1 "calc_cycle_time" =
      some (.s (fmtFixed 2 (((nr : Rat) + 1) * (rt + qt) / 1000) ++ " s")) := by
  simp only [processPasefData, hm, hb, hms, hbs, hnr, hrt, hqt, hne, if_true]
  exact ⟨trivial, pget_pset_self _ _ _⟩

section

attribute [local semireducible] Rat.mul Rat.add Rat.sub Rat.inv

/-- C8 witness: masses 100, 200, 150 with mobilities 0.6, 0.9, 1.2,
ten ramps per cycle, ramp time 100 ms and quench time 8 ms give exactly
those three polygon pairs and an 11 * 108 / 1000 = 1.19 s cycle time. -/
theorem claim_C8_pasef_polygon_and_cycle_time_witness :
    pget paramsC8 "IMS_PolygonFilter_Mass" =
      some (.arr [some "100.0", some "200.0", some "150.0"]) ∧
    pget paramsC8 "IMS_PolygonFilter_Mobility" =
      some (.arr [some "0.6", some "0.9", some "1.2"]) ∧
    floatListFiltered (.arr [some "100.0", some "200.0", some "150.0"]) =
      some [100, 200, 150] ∧
    floatListFiltered (.arr [some "0.6", some "0.9", some "1.2"]) =
      some [6/10, 9/10, 12/10] ∧
    toPyInt (pyOrZero (pget paramsC8 "MSMS_Pasef_NumRampsPerCycle")) = some 10 ∧
    toPyFloat (pyOrZero (pget paramsC8 "IMS_imeX_RampTime")) = some 100 ∧
    toPyFloat (pyOrZero (pget paramsC8 "Collision_QuenchTime_Set")) = some 8 ∧
    ((processPasefData paramsC8).2 = some ([100, 200, 150], [6/10, 9/10, 12/10]) ∧
     pget (processPasefData paramsC8).1 "calc_cycle_time" = some (.s "1.19 s")) :=
  ⟨by decide, by decide, by decide, by decide, by decide, by decide, by decide, by
    have h := claim_C8_pasef_polygon_and_cycle_time paramsC8
      (.arr [some "100.0", some "200.0", some "150.0"])
      (.arr [some "0.6", some "0.9", some "1.2"])
      [100, 200, 150] [6/10, 9/10, 12/10] 10 100 8
      (by decide) (by decide) (by decide) (by decide) (by decide) (by decide)
      (by decide) (by decide)
    exact ⟨h.1, h.2⟩⟩

end

/-- C9 counterexample: on a dia table whose first cycle has five Type 1
rows while two further cycles have two rows each, the per-cycle count
the code stores in calc_steps is the maximum 5, whereas the modal
(most frequent) per-cycle count described by the claim is 2. -/
theorem claim_C9_dia_counts_counterexample :
    diaSteps (rowsC9.filter (fun r => r.typ == 1)) = 5 ∧
    stepsPerCycleModalSpec (rowsC9.filter (fun r => r.typ == 1)) = some 2 ∧
    pget (processDiaPasefData [] (.table rowsC9)).1 "calc_steps" = some (.int 5) :=
  ⟨by decide, by decide, by decide⟩

/-- C9 amended: for the dia-PASEF derivation over a table with at least
one Type 1 row, calc_ms1_scans is the number of Type 0 rows, calc_ramps
the maximum cycle id among the Type 1 rows, and calc_steps the maximum
(not the modal) per-cycle row count among the Type 1 rows. -/
theorem claim_C9_dia_counts (params : Params) (rows : List DiaRow) (q0 : DiaRow)
    (qs : List DiaRow) (hps : rows.filter (fun r => r.typ == 1) = q0 :: qs) :
    pget (processDiaPasefData params (.table rows)).1 "calc_ms1_scans" =
      some (.int ((rows.filter (fun r => r.typ == 0)).length : Int)) ∧
    pget (processDiaPasefData params (.table rows)).1 "calc_ramps" =
      some (.int (listMaxI ((q0 :: qs).map (fun r => r.cycleId)))) ∧
    pget (processDiaPasefData params (.table rows)).1 "calc_steps" =
      some (.int (diaSteps (q0 :: qs))) := by
  cases rows with
  | nil => simp at hps
  | cons r0 rrest =>
    simp only [processDiaPasefData, diaTailWrites, hps]
    refine ⟨?_, ?_, ?_⟩ <;> rw [pget_append] <;> rfl

/-- C9 witness: the spec scenario table with two Type 0 rows and six
Type 1 rows split evenly across two cycle ids gives calc_ms1_scans 2,
calc_ramps 2 and calc_steps 3. -/
theorem claim_C9_dia_counts_witness :
    rowsC9W.filter (fun r => r.typ == 1) =
      [mkDia 3 1 1, mkDia 4 1 1, mkDia 5 1 1, mkDia 6 1 2, mkDia 7 1 2, mkDia 8 1 2] ∧
    (pget (processDiaPasefData [] (.table rowsC9W)).1 "calc_ms1_scans" = some (.int 2) ∧
     pget (processDiaPasefData [] (.table rowsC9W)).1 "calc_ramps" = some (.int 2) ∧
     pget (processDiaPasefData [] (.table rowsC9W)).1 "calc_steps" = some (.int 3)) :=
  ⟨rfl, by
    have h := claim_C9_dia_counts [] rowsC9W (mkDia 3 1 1)
      [mkDia 4 1 1, mkDia 5 1 1, mkDia 6 1 2, mkDia 7 1 2, mkDia 8 1 2] rfl
    exact ⟨h.1, h.2.1, h.2.2⟩⟩

section

attribute [local semireducible] Rat.mul Rat.add Rat.sub Rat.inv

/-- C7 counterexample: loading a diagonal-PASEF (scan mode 11) document
with the synchro auxiliary store absent completes and yields a
diagonal segment, but none of the derivation's computed fields holds an
N/A placeholder: they are simply absent from the parameter dict. -/
theorem claim_C7_aux_failure_counterexample :
    loadOk (loadSegments cfgC7 docC7 auxNone) = true ∧
    segModeAt (loadSegments cfgC7 docC7 auxNone) 0 = some 11 ∧
    pget (segParamsAt (loadSegments cfgC7 docC7 auxNone) 0) "calc_ms1_scans" = none ∧
    pget (segParamsAt (loadSegments cfgC7 docC7 auxNone) 0) "calc_ramps" = none ∧
    pget (segParamsAt (loadSegments cfgC7 docC7 auxNone) 0) "calc_steps" = none ∧
    pget (segParamsAt (loadSegments cfgC7 docC7 auxNone) 0) "calc_mz_width" = none ∧
    pget (segParamsAt (loadSegments cfgC7 docC7 auxNone) 0) "calc_scan_area_mz" = none ∧
    pget (segParamsAt (loadSegments cfgC7 docC7 auxNone) 0) "calc_scan_area_im" = none ∧
    pget (segParamsAt (loadSegments cfgC7 docC7 auxNone) 0) "calc_cycle_time" = none :=
  ⟨by decide, by decide, by decide, by decide, by decide, by decide, by decide,
   by decide, by decide⟩

end

/-- C7 amended: for the failure states an absent store, a store whose
read raises, and an empty table, neither derivation raises, and the
degradation differs per mode: the dia-PASEF derivation writes the
literal "N/A" into every one of its computed fields, while the
diagonal-PASEF derivation returns the parameter dict unchanged, leaving
its computed fields absent rather than set to "N/A".  A readable but
ill-typed table falls outside this degradation: a diagonal template
whose count cells convert but whose isolation m/z is text stops at the
blanket except after writing exactly calc_ms1_scans and calc_ramps
(partial writes, the remaining fields absent). -/
theorem claim_C7_aux_failure_degrades (params : Params) (dsrc : DiaSource) (ssrc : SyncSource)
    (hd : dsrc = .missing ∨ dsrc = .unreadable ∨ dsrc = .table [])
    (hs : ssrc = .missing ∨ ssrc = .unreadable ∨ ssrc = .table []) :
    (∀ k ∈ ["calc_ms1_scans", "calc_ramps", "calc_steps", "calc_mz_width",
        "calc_scan_area_mz", "calc_scan_area_im", "calc_cycle_time"],
      pget (processDiaPasefData params dsrc).1 k = some (.s "N/A")) ∧
    (processDiagonalPasefData params ssrc).1 = params ∧
    (∀ (p : DiagRow) (rest : List DiagRow) (ms1 nr : Int) (s : String),
      pyIntCell p.insertMsScan = some ms1 → pyIntCell p.numberOfSlices = some nr →
      p.isolationMz = .txt s →
      (processDiagonalPasefData params (.table (p :: rest))).1 =
        params ++ [("calc_ms1_scans", Value.int ms1), ("calc_ramps", Value.int nr)]) := by
  refine ⟨?_, ?_, ?_⟩
  · intro k hk
    have hwr : (processDiaPasefData params dsrc).1 = params ++ diaNAWrites false := by
      rcases hd with rfl | rfl | rfl <;> rfl
    rw [hwr, pget_append]
    fin_cases hk <;> rfl
  · rcases hs with rfl | rfl | rfl <;> rfl
  · intro p rest ms1 nr s h1 h2 h3
    simp only [processDiagonalPasefData, h1, h2, h3]

/-- C7 witness: with both stores missing, the dia derivation leaves
"N/A" in a computed field and the diagonal derivation leaves the dict
unchanged; the text-isolation template rowC7 leaves exactly the two
partial count writes. -/
theorem claim_C7_aux_failure_degrades_witness :
    (DiaSource.missing = DiaSource.missing ∨ DiaSource.missing = DiaSource.unreadable ∨
      DiaSource.missing = DiaSource.table []) ∧
    pget (processDiaPasefData [] DiaSource.missing).1 "calc_steps" = some (.s "N/A") ∧
    (processDiagonalPasefData [] SyncSource.missing).1 = [] ∧
    (processDiagonalPasefData [] (.table [rowC7])).1 =
      [("calc_ms1_scans", Value.int 2), ("calc_ramps", Value.int 4)] :=
  ⟨Or.inl rfl, by
    have h := claim_C7_aux_failure_degrades [] DiaSource.missing SyncSource.missing
      (Or.inl rfl) (Or.inl rfl)
    exact ⟨h.1 "calc_steps" (by decide), h.2.1,
      h.2.2 rowC7 [] 2 4 "wide" (by decide) (by decide) (by decide)⟩⟩

/-- C2 counterexample: two rank-3 override scopes in document order,
depC2A then depC2B, both matching the context and both defining x: the
code ranks depC2B before depC2A (the rank-3 bucket is built by
insertion at the front, reversing encounter order) and resolves x to
depC2B's value "b", while the encounter-order tie-break the claim
describes ranks depC2A first. -/
theorem claim_C2_specificity_counterexample :
    rankedDependentScopes scopeC2 (some "positive") (some "esi") =
      [(3, depC2B), (3, depC2A)] ∧
    rankedDependentScopesSpec scopeC2 (some "positive") (some "esi") =
      [(3, depC2A), (3, depC2B)] ∧
    findAndGetValue cfgC2.allDefinitions scopeC2 none (some "positive") (some "esi") pC2 [] =
      some (.s "b") :=
  ⟨rfl, rfl, rfl⟩

theorem rankStep_foldl (pol src : Option String) (ds : List XML) (acc : List (Nat × XML)) :
    (ds.foldl (rankStep pol src) acc).filter (fun p => p.1 == 3) =
      ((ds.filter (fun d => condMatch (d.attr "polarity") pol &&
        condMatch (d.attr "source") src)).reverse.map (fun d => ((3 : Nat), d))) ++
        acc.filter (fun p => p.1 == 3) ∧
    (ds.foldl (rankStep pol src) acc).filter (fun p => p.1 == 2) =
      acc.filter (fun p => p.1 == 2) ++
        ((ds.filter (fun d => condMatch (d.attr "polarity") pol &&
          !condMatch (d.attr "source") src)).map (fun d => ((2 : Nat), d))) ∧
    (ds.foldl (rankStep pol src) acc).filter (fun p => p.1 == 1) =
      acc.filter (fun p => p.1 == 1) ++
        ((ds.filter (fun d => !condMatch (d.attr "polarity") pol &&
          condMatch (d.attr "source") src)).map (fun d => ((1 : Nat), d))) := by
  induction ds generalizing acc with
  | nil => simp
  | cons d ds ih =>
    simp only [List.foldl_cons, List.filter_cons]
    by_cases hpm : condMatch (d.attr "polarity") pol = true <;>
      by_cases hsm : condMatch (d.attr "source") src = true <;>
      simp only [rankStep, hpm, hsm, Bool.true_and, Bool.false_and, Bool.and_true,
        Bool.and_false, Bool.not_true, Bool.not_false, Bool.true_and, if_true, if_false,
        Bool.false_eq_true] <;>
      rcases ih (rankStep pol src acc d) with ⟨ih3, ih2, ih1⟩ <;>
      simp only [rankStep, hpm, hsm, Bool.true_and, Bool.false_and, Bool.and_true,
        Bool.and_false, Bool.not_true, Bool.not_false, if_true, if_false,
        Bool.false_eq_true] at ih3 ih2 ih1 <;>
      rw [ih3, ih2, ih1] <;>
      simp [List.filter_append, List.append_assoc]

/-- C2 amended: the candidate conditional-override scopes are searched
ranked by specificity, both-polarity-and-source before polarity-only
before source-only (the first override containing the parameter then
supplies its value, per findAndGetValue), but within rank 3 the
encounter order is reversed, while ranks 2 and 1 keep encounter order;
in particular a polarity+source override still always precedes every
polarity-only one. -/
theorem claim_C2_specificity_rank_order (root : XML) (pol src : Option String) :
    rankedDependentScopes root pol src =
      (((iterTag root "dependent").filter (fun d => condMatch (d.attr "polarity") pol &&
        condMatch (d.attr "source") src)).reverse.map (fun d => ((3 : Nat), d))) ++
      (((iterTag root "dependent").filter (fun d => condMatch (d.attr "polarity") pol &&
        !condMatch (d.attr "source") src)).map (fun d => ((2 : Nat), d))) ++
      (((iterTag root "dependent").filter (fun d => !condMatch (d.attr "polarity") pol &&
        condMatch (d.attr "source") src)).map (fun d => ((1 : Nat), d))) := by
  rcases rankStep_foldl pol src (iterTag root "dependent") [] with ⟨h3, h2, h1⟩
  simp only [rankedDependentScopes]
  rw [h3, h2, h1]
  simp [List.append_assoc]

/-- C1 amended: the inheritance invariant holds of the parse-and-merge
step, not of the full seed: for a successfully populated segment, at
every key that is not a calculated (calc_) key, is not one of the
conditional-logic targets IMS_imeX_AccumulationTime and
IMS_imeX_DutyCycleLock, and is untouched by the dependency reduction
loop, the seed dict handed to the next segment equals the predecessor's
dict updated with exactly the values found in the current segment's own
scope (a key not found in the scope keeps the predecessor's value).
The excluded keys can change without any override in the scope, because
the seed is taken after the derivation and conditional-logic passes. -/
theorem claim_C1_inheritance (cfg : Config) (sc : XML) (instr : Option XML)
    (smm pm : List (String × String)) (aux : AuxStores) (prev : Params) (seg : Segment)
    (su : Segment × Params) (k : String)
    (h : populateSegment cfg sc instr smm pm aux prev seg = .ok su)
    (hk : isCalcKey k = false)
    (h1 : k ≠ "IMS_imeX_AccumulationTime") (h2 : k ≠ "IMS_imeX_DutyCycleLock")
    (hred : pget (reduceLoop cfg.allDefinitions
        (prev ++ segmentParsedValues cfg sc instr pm prev)) k =
      pget (prev ++ segmentParsedValues cfg sc instr pm prev) k) :
    pget su.2 k = (pget (segmentParsedValues cfg sc instr pm prev) k).or (pget prev k) := by
  have hok := populateSegment_ok cfg sc instr smm pm aux prev seg su h
  rw [hok.1]
  have h3 : k ≠ "calc_cycle_time" :=
    (isCalcKey_ne k "calc_cycle_time" hk (by decide)).symm
  rw [pget_applyConditionalLogic _ _ h1 h2 h3, pget_performCalculations _ _ _ _ _ hk]
  show pget (reduceLoop cfg.allDefinitions
    (prev ++ segmentParsedValues cfg sc instr pm prev)) k = _
  rw [hred, pget_append]

section

attribute [local semireducible] Rat.mul Rat.add Rat.sub Rat.inv

/-- C1 counterexample: in docC1, segment 1's seed holds accumulation
time "5" (the duty-cycle lock copies the ramp time 5); segment 2's own
scope does not define the accumulation time at all, yet segment 2's
seed holds "7": the duty-lock copy re-runs on the merged dict of
segment 2 (whose ramp time override is 7) instead of keeping the
predecessor's value, so the seed is not the predecessor's mapping
updated with only the values found in the scope. -/
theorem claim_C1_inheritance_counterexample :
    loadOk (loadSegments cfgC1 docC1 auxNone) = true ∧
    pget (segParamsAt (loadSegments cfgC1 docC1 auxNone) 0) "IMS_imeX_AccumulationTime" =
      some (.s "5") ∧
    pget (segmentParsedValues cfgC1 segScopeC1b none []
      (segParamsAt (loadSegments cfgC1 docC1 auxNone) 0)) "IMS_imeX_AccumulationTime" =
      none ∧
    pget (segParamsAt (loadSegments cfgC1 docC1 auxNone) 1) "IMS_imeX_AccumulationTime" =
      some (.s "7") :=
  ⟨by decide, by decide, by decide, by decide⟩

/-- C1 witness: a segment scope that resolves only Mode_ScanMode and B;
the untouched inherited key A keeps the predecessor's value in the
seed, which equals the predecessor updated with the scope's values. -/
theorem claim_C1_inheritance_witness :
    resW1 = .ok suW1 ∧ isCalcKey "A" = false ∧
    pget (reduceLoop cfgW1.allDefinitions
        (prevW1 ++ segmentParsedValues cfgW1 scopeW1 none [] prevW1)) "A" =
      pget (prevW1 ++ segmentParsedValues cfgW1 scopeW1 none [] prevW1) "A" ∧
    pget suW1.2 "A" =
      (pget (segmentParsedValues cfgW1 scopeW1 none [] prevW1) "A").or (pget prevW1 "A") :=
  ⟨by decide, by decide, by decide,
    claim_C1_inheritance cfgW1 scopeW1 none [("0", "MS")] [] auxNone prevW1 (mkSegment 0 5)
      suW1 "A" (by decide) (by decide) (by decide) (by decide) (by decide)⟩

end

theorem option_or_absorb (a b c : Option Value) :
    a.or (b.or (a.or (b.or c))) = a.or (b.or c) := by
  cases a <;> cases b <;> rfl

theorem paramsEquiv_refl (d : Params) : ParamsEquiv d d := fun _ => rfl

theorem segsEquiv_refl (l : List (XML × Params)) : SegsEquiv l l := by
  induction l with
  | nil => exact List.Forall₂.nil
  | cons p l ih => exact List.Forall₂.cons ⟨rfl, paramsEquiv_refl p.2⟩ ih

theorem parseAdditionalGo_equiv (cfg : Config) (instr : Option XML)
    (allParams : List ParamDef) (polMap : List (String × String))
    (ionSource : Option String) :
    ∀ (segs : List (XML × Params)) (l1 l2 : Params), ParamsEquiv l2 l1 →
      SegsEquiv (parseAdditionalGo cfg instr allParams polMap ionSource l2
          (parseAdditionalGo cfg instr allParams polMap ionSource l1 segs))
        (parseAdditionalGo cfg instr allParams polMap ionSource l1 segs) := by
  intro segs
  induction segs with
  | nil => intro l1 l2 hl; exact List.Forall₂.nil
  | cons sp rest ih =>
    intro l1 l2 hl
    simp only [parseAdditionalGo]
    cases hcur : getValueFromElement (findPN "Mode_IonPolarity" sp.1) none with
    | none =>
      simp only
      rw [hl "Mode_IonPolarity"]
      have hu : ParamsEquiv
          ((sp.2 ++ l1 ++ parseParametersForScope cfg.allDefinitions sp.1 instr allParams
            (mget polMap (pyStrOpt (pget l1 "Mode_IonPolarity"))) ionSource) ++ l2 ++
            parseParametersForScope cfg.allDefinitions sp.1 instr allParams
            (mget polMap (pyStrOpt (pget l1 "Mode_IonPolarity"))) ionSource)
          (sp.2 ++ l1 ++ parseParametersForScope cfg.allDefinitions sp.1 instr allParams
            (mget polMap (pyStrOpt (pget l1 "Mode_IonPolarity"))) ionSource) := by
        intro k
        simp only [pget_append]
        rw [hl k]
        exact option_or_absorb _ _ _
      exact List.Forall₂.cons ⟨rfl, hu⟩ (ih _ _ hu)
    | some v =>
      simp only
      have hu : ParamsEquiv
          ((sp.2 ++ l1 ++ parseParametersForScope cfg.allDefinitions sp.1 instr allParams
            (mget polMap (pyStrOpt (some v))) ionSource) ++ l2 ++
            parseParametersForScope cfg.allDefinitions sp.1 instr allParams
            (mget polMap (pyStrOpt (some v))) ionSource)
          (sp.2 ++ l1 ++ parseParametersForScope cfg.allDefinitions sp.1 instr allParams
            (mget polMap (pyStrOpt (some v))) ionSource) := by
        intro k
        simp only [pget_append]
        rw [hl k]
        exact option_or_absorb _ _ _
      exact List.Forall₂.cons ⟨rfl, hu⟩ (ih _ _ hu)

/-- C3: re-resolving additional parameters against an already-parsed
tree is idempotent: a second call with the same requested-parameter set,
the same ion-source context and the same previously-resolved state
leaves every segment's parameter mapping equal (as a mapping, which is
what equality of the Python dicts means) to the mapping after the
first call, with the scopes unchanged. -/
theorem claim_C3_reresolution_idempotent (cfg : Config) (ds : PDataset)
    (additional : List ParamDef) (ionSource : Option String) :
    SegsEquiv (parseAdditionalParameters cfg
        (parseAdditionalParameters cfg ds additional ionSource) additional ionSource).segs
      (parseAdditionalParameters cfg ds additional ionSource).segs := by
  by_cases he : additional.isEmpty = true
  · simp only [parseAdditionalParameters, he, if_true]
    exact segsEquiv_refl _
  · simp only [parseAdditionalParameters, he, Bool.false_eq_true, if_false]
    exact parseAdditionalGo_equiv cfg ds.instrumentScope (ds.defaultParams ++ additional)
      (((defLookup cfg.allDefinitions "Mode_IonPolarity").map (fun d => d.valueMap)).getD [])
      ionSource ds.segs [] [] (paramsEquiv_refl [])
